import Mathlib

/-!
Verification development for a turn-based multi-agent prison-simulation engine
(Python source: `models/schemas.py`, `models/enums.py`, `models/actions.py`,
`core/clock.py`, `core/engine.py`, `core/rule_engine.py`, `models/maslow_goals.py`).

The Python code is shallowly embedded: Python ints become `Int`, floats that
only ever hold exact values become `ℚ`, dicts (which iterate in insertion
order) become association lists, and in-place mutation becomes explicit state
passing.  A Python function that can raise an uncaught exception is modelled
by an outcome that carries the state reached at the raise point, since
mutations performed before the exception persist.
-/

namespace Prometheus

/-- `models/enums.py` `RoleEnum`. -/
inductive Role where
  | guard
  | prisoner
deriving DecidableEq, Repr

/-- `models/enums.py` `ItemEnum`. -/
inductive ItemType where
  | food | water | book
  | baton | handcuffs | radio | keys | firstAid | whistle
  | cigarettes | playingCards | diary | spoon | bedsheet | soap
  | shiv | rope | lockpick | toolbox | chair | table
deriving DecidableEq, Repr

/-- `models/enums.py` `ActionEnum`. -/
inductive ActionKind where
  | doNothing | move | useItem | giveItem | speak | attack
  | announceRule | patrolInspect | enforcePunishment | assignTask | emergencyAssembly
  | stealItem | formAlliance | digTunnel | craftWeapon | spreadRumor
deriving DecidableEq, Repr

/-- `models/schemas.py` `Item`. -/
structure Item where
  item_id : String
  name : String
  description : String
  item_type : ItemType
deriving DecidableEq, Repr

/-- `models/schemas.py` `Relationship` (score 0-100 plus free-text context). -/
structure Relationship where
  score : Int
  context : String
deriving DecidableEq, Repr

/-- `models/schemas.py` `AgentTraits`. -/
structure AgentTraits where
  aggression : Int
  empathy : Int
  logic : Int
  obedience : Int
  resilience : Int
deriving DecidableEq, Repr

/-- `models/schemas.py` `Agent`.  The episodic memory list stands for
`memory["episodic"]`, the only memory key the embedded code writes. -/
structure Agent where
  agent_id : String
  name : String
  role : Role
  traits : AgentTraits
  hp : Int
  sanity : Int
  hunger : Int
  thirst : Int
  strength : Int
  action_points : Int
  position : Int × Int
  inventory : List Item
  status_tags : List String
  relationships : List (String × Relationship)
  memory : List String
deriving DecidableEq, Repr

/-- `models/schemas.py` `GameMap`.  The Python `items` dict is keyed by the
string `"x,y"`; the embedding keys it by the coordinate pair directly. -/
structure GameMap where
  width : Int
  height : Int
  items : List ((Int × Int) × List Item)
deriving DecidableEq, Repr

/-- `models/schemas.py` `WorldState` (the fields the embedded code touches). -/
structure World where
  session_id : String
  day : Int
  hour : Int
  minute : Int
  agents : List (String × Agent)
  game_map : GameMap
  event_log : List String
deriving DecidableEq, Repr

/-- Modelled from the spec: `configs/game_rules.json` is not in the source
tree; the spec (§4.1, §4.2, §6) describes it as supplying nonnegative decay
rates, the flat per-bad-tag sanity penalty, and the attack-damage formula
coefficients (base damage, strength modifier, uniform random roll range, and
a fixed nonnegative recoil penalty). -/
structure GameRules where
  hunger_increase_per_hour : Nat
  thirst_increase_per_hour : Nat
  sanity_penalty_per_bad_tag : Nat
  base_damage : Int
  strength_modifier : ℚ
  random_damage_lo : Int
  random_damage_hi : Int
  recoil_damage : Nat
deriving DecidableEq, Repr

/-- Dictionary lookup `world_state.agents.get(agent_id)`. -/
def World.getAgent (w : World) (aid : String) : Option Agent :=
  (w.agents.find? (fun p => p.1 == aid)).map Prod.snd

/-- In-place mutation of one agent of the `agents` dict. -/
def World.updAgent (w : World) (aid : String) (f : Agent → Agent) : World :=
  { w with agents := w.agents.map (fun p => if p.1 == aid then (p.1, f p.2) else p) }

/-- Python `int(d * q)` for an integer `d` and an exact rational `q`:
truncation toward zero of the product, computed on the numerator and
denominator so it evaluates in the kernel. -/
def truncMulInt (d : Int) (q : ℚ) : Int :=
  (d * q.num).tdiv q.den

/-! ## Status Engine (`core/clock.py`, `TimeController`) -/

/-- `core/clock.py:79` `TimeController._update_status_tags`, the pure part:
the tag list recomputed from the current vitals (lines 81-117).  The death
branch additionally tries to log a death event; that part is modelled by
`updateStatusTagsCrashes` below. -/
def updateStatusTags (a : Agent) : Agent :=
  let tags : List String :=
    (if a.hunger > 90 then ["starving"]
     else if a.hunger > 80 then ["very_hungry"]
     else if a.hunger > 60 then ["hungry"] else [])
    ++ (if a.thirst > 85 then ["dehydrated"]
        else if a.thirst > 75 then ["very_thirsty"]
        else if a.thirst > 55 then ["thirsty"] else [])
    ++ (if a.hp < 20 then ["critical"]
        else if a.hp < 40 then ["injured"]
        else if a.hp < 60 then ["wounded"] else [])
    ++ (if a.sanity < 20 then ["unhinged"]
        else if a.sanity < 40 then ["unstable"]
        else if a.sanity < 60 then ["stressed"] else [])
    ++ (if a.hp ≤ 0 then ["deceased"] else [])
  { a with status_tags := tags }

/-- `core/clock.py:116-120`: in the `hp <= 0` branch, after appending
`"deceased"`, the method evaluates `world_state.session_id` — but
`world_state` is not a name in scope in `_update_status_tags` (the method
receives only `agent`), so Python raises `NameError` there, after the tag
assignment and before any event is logged. -/
def updateStatusTagsCrashes (a : Agent) : Bool :=
  a.hp ≤ 0

/-- `core/clock.py:66` the negative tags that cost sanity. -/
def negativeTags : List String :=
  ["hungry", "thirsty", "injured", "exhausted"]

/-- `core/clock.py:33-35`: the hunger/thirst increases, clamped at 100. -/
def hourlyDecay (r : GameRules) (a : Agent) : Agent :=
  { a with
    hunger := min 100 (a.hunger + (r.hunger_increase_per_hour : Int)),
    thirst := min 100 (a.thirst + (r.thirst_increase_per_hour : Int)) }

/-- `core/clock.py:38-52`: the progressive hunger/thirst HP penalty
`min(15, (hunger-80)^2/40) + min(20, (thirst-75)^2/30)`, represented exactly
as 120 times its value so the computation stays in `Int`
(`120·min(15, e²/40) = min(1800, 3e²)` and `120·min(20, e²/30) = min(2400, 4e²)`). -/
def hpPenaltyTimes120 (a : Agent) : Int :=
  (if a.hunger > 80 then min 1800 (3 * (a.hunger - 80) ^ 2) else 0)
    + (if a.thirst > 75 then min 2400 (4 * (a.thirst - 75) ^ 2) else 0)

/-- `core/clock.py:54-57`: apply the penalty when positive; Python's
`int(hp_penalty)` on the nonnegative float is the floor, i.e. `fdiv 120` of
the scaled value. -/
def hourlyHpDamage (a : Agent) : Agent :=
  if hpPenaltyTimes120 a > 0 then
    { a with hp := max 0 (a.hp - (hpPenaltyTimes120 a).fdiv 120),
             memory := a.memory ++ ["Lost HP due to hunger/thirst"] }
  else a

/-- `core/clock.py:59-71`: flat sanity penalty per currently carried
negative status tag. -/
def hourlySanity (r : GameRules) (a : Agent) : Agent :=
  { a with sanity := max 0 (a.sanity -
      (r.sanity_penalty_per_bad_tag : Int) *
        ((a.status_tags.filter (fun t => negativeTags.contains t)).length : Int)) }

/-- `core/clock.py:31` `TimeController._apply_hourly_changes` on one agent.
Returns the agent state together with a flag telling whether the call raised
(the `NameError` of `_update_status_tags`); on a raise, the vitals and tags
already written persist but the action-point reset (line 77, which runs after
`_update_status_tags` returns) does not. -/
def applyHourlyChanges (r : GameRules) (a : Agent) : Agent × Bool :=
  let a := hourlyDecay r a
  let a := hourlyHpDamage a
  let a := hourlySanity r a
  let a := updateStatusTags a
  if updateStatusTagsCrashes a then
    (a, true)
  else
    ({ a with action_points := min 3 (3 - max 0 ((100 - a.hp).fdiv 25)) }, false)

/-- `core/clock.py:27-29`: the per-agent loop of `advance_time`.  A raise in
one agent's update aborts the loop; agents processed earlier keep their new
state, later agents keep their old state. -/
def advanceAgents (r : GameRules) : List (String × Agent) →
    List (String × Agent) × Bool
  | [] => ([], false)
  | (i, a) :: rest =>
    let (a', crashed) := applyHourlyChanges r a
    if crashed then ((i, a') :: rest, true)
    else
      let (rest', c) := advanceAgents r rest
      ((i, a') :: rest', c)

/-- `core/clock.py:17` `TimeController.advance_time`: advance the hour with
day rollover, then apply hourly changes to every agent.  The `Bool` is true
when the call raised the `NameError` of `_update_status_tags` (any agent at
`hp <= 0` after decay). -/
def advanceTime (r : GameRules) (w : World) : World × Bool :=
  let h := w.hour + 1
  let w :=
    if h ≥ 24 then
      { w with hour := 0, day := w.day + 1,
               event_log := w.event_log ++ [s!"--- Day {w.day + 1} begins ---"] }
    else { w with hour := h }
  let (agents', crashed) := advanceAgents r w.agents
  ({ w with agents := agents' }, crashed)

/-- `core/engine.py:122-127`: in the agent phase the scheduler iterates the
agent ids and `continue`s past any agent with `hp <= 0`. -/
def schedulerSkips (a : Agent) : Bool :=
  a.hp ≤ 0

/-! ## Action System (`models/actions.py`) -/

/-- The keyword arguments an action execution receives, after Python's
`kwargs.get(..., default)` defaulting has been applied. -/
structure ActParams where
  x : Option Int
  y : Option Int
  target_id : Option String
  item_id : Option String
  message : String
  reason : String
  rule_text : String
  punishment_type : String
  alliance_name : String
  rumor_text : String
  task_text : String
  location : String
deriving DecidableEq, Repr

/-- The values drawn from Python's global `random` during one action:
`random.randint(*random_damage_range)`, up to two `random.random()` calls,
and the index picked by `random.choice`. -/
structure Rng where
  attack_roll : Int
  u1 : ℚ
  u2 : ℚ
  choice_idx : Nat
deriving DecidableEq, Repr

/-- Result of running an action body: a returned `ActionResult` or an
uncaught Python exception. -/
inductive Outcome where
  | res (success : Bool) (msg : String)
  | exn (msg : String)
deriving DecidableEq, Repr

/-- Whether the outcome is a returned successful `ActionResult`. -/
def Outcome.isSuccess : Outcome → Bool
  | .res true _ => true
  | _ => false

/-- The fixed `ap_cost` each action class declares in its `__init__`. -/
def apCost : ActionKind → Int
  | .doNothing => 1
  | .move => 1
  | .useItem => 1
  | .giveItem => 1
  | .speak => 1
  | .attack => 2
  | .announceRule => 2
  | .patrolInspect => 2
  | .enforcePunishment => 2
  | .assignTask => 1
  | .emergencyAssembly => 3
  | .stealItem => 2
  | .formAlliance => 2
  | .digTunnel => 3
  | .craftWeapon => 3
  | .spreadRumor => 1

/-- Manhattan distance, `abs(x1-x2) + abs(y1-y2)` as computed throughout
`models/actions.py`. -/
def manhattan (p q : Int × Int) : Int :=
  |p.1 - q.1| + |p.2 - q.2|

/-- `agent.relationships[tid].score = ...` guarded by
`if tid in agent.relationships`: update the entry when present, else leave
the agent unchanged. -/
def updRel (a : Agent) (tid : String) (f : Relationship → Relationship) : Agent :=
  { a with relationships :=
      a.relationships.map (fun pr => if pr.1 == tid then (pr.1, f pr.2) else pr) }

/-- Append one line to an agent's episodic memory. -/
def addMemory (a : Agent) (line : String) : Agent :=
  { a with memory := a.memory ++ [line] }

/-- Append one line to the world event log. -/
def logEvent (w : World) (line : String) : World :=
  { w with event_log := w.event_log ++ [line] }

/-- `world_state.agents[agent_id]` at the top of every `execute`: a missing
key raises `KeyError`. -/
def withAgent (w : World) (aid : String) (k : Agent → World × Outcome) :
    World × Outcome :=
  match w.getAgent aid with
  | none => (w, .exn "KeyError")
  | some a => k a

/-- `if not target_id or target_id not in world_state.agents` — the guard
every targeted action starts with (`None` and the empty string are falsy). -/
def lookupTarget (w : World) (tid : Option String) : Option (String × Agent) :=
  match tid with
  | none => none
  | some t => if t = "" then none else (w.getAgent t).map (fun a => (t, a))

/-- `s.count(sub) > 0`-style containment used by the rumor action
(`if "狱警" in rumor_text`). -/
def strContains (s sub : String) : Bool :=
  (s.splitOn sub).length > 1

/-- `models/actions.py:36` `DoNothingAction.execute`. -/
def executeDoNothing (w : World) (aid : String) : World × Outcome :=
  withAgent w aid fun _ =>
    let w := w.updAgent aid fun a =>
      addMemory { a with action_points := a.action_points - 1 }
        "Rested and observed the surroundings"
    (logEvent w "rests and observes.", .res true "Agent rests")

/-- `models/actions.py:108-179`: the tail of `MoveAction.execute` after the
step-budget redirection — clamp to map bounds, re-adjust and re-clamp when
clamping left the target more than 8 steps away, check occupancy, then
commit the move. -/
def moveFinalTarget (width height cx cy tx ty : Int) : Int × Int :=
  let ctx := max 0 (min tx (width - 1))
  let cty := max 0 (min ty (height - 1))
  if (ctx, cty) ≠ (tx, ty) then
    if |ctx - cx| + |cty - cy| > 8 then
      let dx := ctx - cx
      let dy := cty - cy
      let adj :=
        if |dx| + |dy| > 8 then
          if |dx| ≥ |dy| then
            (cx + (if dx > 0 then 8 else if dx < 0 then -8 else 0), cy)
          else
            (cx, cy + (if dy > 0 then 8 else if dy < 0 then -8 else 0))
        else (ctx, cty)
      (max 0 (min adj.1 (width - 1)), max 0 (min adj.2 (height - 1)))
    else (ctx, cty)
  else (ctx, cty)

def moveClampAndCommit (w : World) (aid : String) (agent : Agent)
    (tx ty tx0 ty0 : Int) : World × Outcome :=
  let final := moveFinalTarget w.game_map.width w.game_map.height
    agent.position.1 agent.position.2 tx ty
  if w.agents.any (fun p => p.2.agent_id ≠ aid && p.2.position == final) then
    (w, .res false "Position occupied")
  else
    let wasAdjusted : Bool := final.1 ≠ tx0 || final.2 ≠ ty0
    let w := w.updAgent aid fun a =>
      addMemory { a with position := final, action_points := a.action_points - 1 }
        (if wasAdjusted then "Attempted move adjusted to nearest reachable position"
         else "Moved to position")
    (logEvent w "moves", .res true "Agent moved")

/-- `models/actions.py:63` `MoveAction.execute`.  `int(d * (8.0 / m))` is
embedded as exact truncated division `(8*d).tdiv m`. -/
def executeMove (w : World) (aid : String) (p : ActParams) : World × Outcome :=
  withAgent w aid fun agent =>
    match p.x, p.y with
    | some tx0, some ty0 =>
      let cx := agent.position.1
      let cy := agent.position.2
      let d0 := |tx0 - cx| + |ty0 - cy|
      if d0 > 8 then
        let dx := tx0 - cx
        let dy := ty0 - cy
        if dx = 0 ∧ dy = 0 then (w, .res false "No movement intended")
        else
          let odx := (8 * dx).tdiv d0
          let ody := (8 * dy).tdiv d0
          let opt :=
            if |odx| + |ody| > 8 then
              if |dx| ≥ |dy| then
                ((if dx > 0 then 8 else if dx < 0 then -8 else 0), 0)
              else
                (0, (if dy > 0 then 8 else if dy < 0 then -8 else 0))
            else (odx, ody)
          moveClampAndCommit w aid agent (cx + opt.1) (cy + opt.2) tx0 ty0
      else
        moveClampAndCommit w aid agent tx0 ty0 tx0 ty0
    | _, _ => (w, .res false "Invalid coordinates")

/-- `models/actions.py:185` `SpeakAction.execute`. -/
def executeSpeak (w : World) (aid : String) (p : ActParams) : World × Outcome :=
  withAgent w aid fun agent =>
    match lookupTarget w p.target_id with
    | none => (w, .res false "Invalid target")
    | some (tid, target) =>
      if manhattan agent.position target.position > 2 then
        (w, .res false "Target too far away")
      else
        let w := w.updAgent aid fun a =>
          addMemory { a with action_points := a.action_points - 1 }
            s!"Said to target: {p.message}"
        let w := w.updAgent tid fun t => addMemory t s!"heard: {p.message}"
        (logEvent w s!"says: {p.message}", .res true "Agent spoke")

/-- The damage formula of `AttackAction.execute` (`models/actions.py:259-260`):
`max(1, base + int(strength_diff * modifier) + randint(*range))`. -/
def attackDamage (r : GameRules) (rng : Rng) (attacker target : Agent) : Int :=
  max 1 (r.base_damage +
    truncMulInt (attacker.strength - target.strength) r.strength_modifier
    + rng.attack_roll)

/-- `models/actions.py:230` `AttackAction.execute`. -/
def executeAttack (r : GameRules) (rng : Rng) (w : World) (aid : String)
    (p : ActParams) : World × Outcome :=
  withAgent w aid fun agent =>
    match lookupTarget w p.target_id with
    | none => (w, .res false "Invalid target")
    | some (tid, target) =>
      if manhattan agent.position target.position > 2 then
        (w, .res false "Target too far away")
      else
        let damage : Int := attackDamage r rng agent target
        let w := w.updAgent tid fun t => { t with hp := max 0 (t.hp - damage) }
        let w := w.updAgent aid fun a =>
          { a with hp := max 0 (a.hp - (r.recoil_damage : Int)) }
        let w := w.updAgent aid fun a =>
          { a with action_points := a.action_points - 2 }
        let w := w.updAgent aid fun a =>
          updRel a tid fun rel => { rel with score := max 0 (rel.score - 10) }
        let w := w.updAgent tid fun t =>
          updRel t aid fun rel => { rel with score := max 0 (rel.score - 25) }
        let w := w.updAgent aid fun a => addMemory a s!"Attacked. Reason: {p.reason}"
        let w := w.updAgent tid fun t => addMemory t "Was attacked"
        (logEvent w "attacks!", .res true "Attack executed")

/-- `models/actions.py:300` `UseItemAction.execute`. -/
def executeUseItem (w : World) (aid : String) (p : ActParams) : World × Outcome :=
  withAgent w aid fun agent =>
    match agent.inventory.find? (fun it => p.item_id == some it.item_id) with
    | none => (w, .res false "Item not found in inventory")
    | some item =>
      match item.item_type with
      | .food =>
        let w := w.updAgent aid fun a =>
          addMemory { a with
              hunger := max 0 (a.hunger - 50),
              inventory := a.inventory.eraseP (fun it => it.item_id == item.item_id),
              action_points := a.action_points - 1 }
            "Used food"
        (logEvent w "eats", .res true "Item used")
      | .water =>
        let w := w.updAgent aid fun a =>
          addMemory { a with
              thirst := max 0 (a.thirst - 40),
              inventory := a.inventory.eraseP (fun it => it.item_id == item.item_id),
              action_points := a.action_points - 1 }
            "Used water"
        (logEvent w "drinks", .res true "Item used")
      | .book =>
        let w := w.updAgent aid fun a =>
          addMemory { a with
              sanity := min 100 (a.sanity + 10),
              action_points := a.action_points - 1 }
            "Used book"
        (logEvent w "reads", .res true "Item used")
      | _ => (w, .res false "Cannot use this item")

/-- `models/actions.py:357` `GiveItemAction.execute`. -/
def executeGiveItem (w : World) (aid : String) (p : ActParams) : World × Outcome :=
  withAgent w aid fun agent =>
    match lookupTarget w p.target_id with
    | none => (w, .res false "target agent does not exist")
    | some (tid, target) =>
      if manhattan agent.position target.position > 2 then
        (w, .res false "target too far")
      else
        match agent.inventory.find? (fun it => p.item_id == some it.item_id) with
        | none => (w, .res false "item not in inventory")
        | some item =>
          let w := w.updAgent aid fun a =>
            { a with action_points := a.action_points - 1 }
          let w := w.updAgent aid fun a =>
            { a with inventory :=
                a.inventory.eraseP (fun it => it.item_id == item.item_id) }
          let w := w.updAgent tid fun t =>
            { t with inventory := t.inventory ++ [item] }
          let w := w.updAgent aid fun a =>
            updRel a tid fun rel =>
              { score := min 100 (rel.score + 5), context := "gift giver" }
          let w := w.updAgent tid fun t =>
            updRel t aid fun rel =>
              { score := min 100 (rel.score + 10), context := "gift receiver" }
          let w := w.updAgent aid fun a => addMemory a "gave item"
          let w := w.updAgent tid fun t => addMemory t "received item"
          (logEvent w "gives item", .res true "item given")

/-- Loop `for other_id, other_agent in world_state.agents.items(): ...` that
rewrites each agent in dict order. -/
def World.mapAgents (w : World) (f : String → Agent → Agent) : World :=
  { w with agents := w.agents.map (fun pr => (pr.1, f pr.1 pr.2)) }

/-- `models/actions.py:436` `AnnounceRuleAction.execute`. -/
def executeAnnounceRule (w : World) (aid : String) (p : ActParams) :
    World × Outcome :=
  withAgent w aid fun _ =>
    if p.rule_text = "" then (w, .res false "rule text required")
    else
      let w := w.updAgent aid fun a =>
        { a with action_points := a.action_points - 2 }
      let w := w.mapAgents fun _ ag =>
        if ag.role = .prisoner then
          addMemory
            (updRel ag aid fun rel =>
              { score := max 0 (rel.score - 10), context := "rule maker" })
            s!"new rule announced: {p.rule_text}"
        else ag
      let w := w.updAgent aid fun a =>
        addMemory a s!"announced rule: {p.rule_text}"
      (logEvent w "announces rule", .res true "rule broadcast")

/-- `models/actions.py:510`: the item kinds `PatrolInspectAction` treats as
contraband. -/
def contrabandTypes : List ItemType :=
  [.shiv, .lockpick, .rope]

/-- `models/actions.py:491` `PatrolInspectAction.execute`. -/
def executePatrolInspect (w : World) (aid : String) (p : ActParams) :
    World × Outcome :=
  withAgent w aid fun agent =>
    match lookupTarget w p.target_id with
    | none => (w, .res false "inspection target required")
    | some (tid, target) =>
      if manhattan agent.position target.position > 2 then
        (w, .res false "target too far")
      else
        let w := w.updAgent aid fun a =>
          { a with action_points := a.action_points - 2 }
        let contraband :=
          (target.inventory.filter
            (fun it => contrabandTypes.contains it.item_type)).map Item.name
        let w := w.updAgent aid fun a =>
          updRel a tid fun rel => { rel with score := max 0 (rel.score - 5) }
        let w := w.updAgent tid fun t =>
          updRel t aid fun rel => { rel with score := max 0 (rel.score - 15) }
        let w := w.updAgent tid fun t =>
          addMemory t (if contraband.isEmpty then "was searched"
                       else "searched, contraband found")
        let w := w.updAgent aid fun a =>
          addMemory a (if contraband.isEmpty then "inspected, nothing found"
                       else "inspected, contraband found")
        (logEvent w "inspects", .res true "inspection done")

/-- `models/actions.py:560` `EnforcePunishmentAction.execute`. -/
def executeEnforcePunishment (w : World) (aid : String) (p : ActParams) :
    World × Outcome :=
  withAgent w aid fun agent =>
    match lookupTarget w p.target_id with
    | none => (w, .res false "punishment target required")
    | some (tid, target) =>
      if target.role ≠ .prisoner then (w, .res false "can only punish prisoners")
      else if manhattan agent.position target.position > 2 then
        (w, .res false "target too far")
      else
        let w := w.updAgent aid fun a =>
          { a with action_points := a.action_points - 2 }
        let w := w.updAgent tid fun t =>
          if p.punishment_type = "isolation" then
            { t with sanity := max 0 (t.sanity - 20) }
          else if p.punishment_type = "labor" then
            { t with strength := max 0 (t.strength - 15) }
          else if p.punishment_type = "restriction" then
            { t with action_points := max 0 (t.action_points - 1) }
          else t
        let w := w.updAgent tid fun t =>
          updRel t aid fun rel =>
            { score := max 0 (rel.score - 25), context := "abusive guard" }
        let w := w.updAgent aid fun a =>
          updRel a tid fun rel =>
            { score := max 0 (rel.score - 10), context := "punished prisoner" }
        let w := w.updAgent aid fun a => addMemory a "enforced punishment"
        let w := w.updAgent tid fun t => addMemory t "was punished"
        (logEvent w "punishes", .res true "punishment enforced")

/-- `models/actions.py:916` `AssignTaskAction.execute` (note: no distance
check). -/
def executeAssignTask (w : World) (aid : String) (p : ActParams) :
    World × Outcome :=
  withAgent w aid fun _ =>
    match lookupTarget w p.target_id with
    | none => (w, .res false "task target required")
    | some (tid, target) =>
      if target.role ≠ .prisoner then
        (w, .res false "can only assign tasks to prisoners")
      else
        let w := w.updAgent aid fun a =>
          { a with action_points := a.action_points - 1 }
        let w := w.updAgent tid fun t =>
          updRel t aid fun rel =>
            { score := max 0 (rel.score - 3), context := "task assigner" }
        let w := w.updAgent aid fun a =>
          updRel a tid fun rel => { rel with score := min 100 (rel.score + 2) }
        let w := w.updAgent tid fun t =>
          { t with sanity := max 0 (t.sanity - 5) }
        let w := w.updAgent aid fun a =>
          addMemory a s!"assigned task: {p.task_text}"
        let w := w.updAgent tid fun t =>
          addMemory t s!"got task: {p.task_text}"
        (logEvent w "assigns task", .res true "task assigned")

/-- `models/actions.py:978` `EmergencyAssemblyAction.execute`. -/
def executeEmergencyAssembly (w : World) (aid : String) (p : ActParams) :
    World × Outcome :=
  withAgent w aid fun _ =>
    let w := w.updAgent aid fun a =>
      { a with action_points := a.action_points - 3 }
    let w := w.mapAgents fun _ ag =>
      if ag.role = .prisoner then
        addMemory
          (updRel
            { ag with sanity := max 0 (ag.sanity - 15),
                      strength := max 0 (ag.strength - 5) }
            aid fun rel =>
              { score := max 0 (rel.score - 8), context := "emergency authority" })
          s!"emergency assembly: {p.reason}"
      else ag
    let w := w.updAgent aid fun a =>
      addMemory a s!"called emergency assembly: {p.reason}"
    (logEvent w "emergency assembly", .res true "assembly called")

/-- `models/actions.py:640` `StealItemAction.execute`.  The theft succeeds
when `traits.logic * 0.8 + random.random() * 0.4 > 0.5`; a second
`random.random() < 0.3` decides discovery. -/
def executeStealItem (rng : Rng) (w : World) (aid : String) (p : ActParams) :
    World × Outcome :=
  withAgent w aid fun agent =>
    match lookupTarget w p.target_id with
    | none => (w, .res false "steal target required")
    | some (tid, target) =>
      if manhattan agent.position target.position > 1 then
        (w, .res false "target too far")
      else if hInv : target.inventory.isEmpty then
        (w, .res false "target has nothing to steal")
      else
        let w := w.updAgent aid fun a =>
          { a with action_points := a.action_points - 2 }
        let successRate : ℚ :=
          (agent.traits.logic : ℚ) * (4 / 5) + rng.u1 * (2 / 5)
        if successRate > 1 / 2 then
          let stolen := target.inventory.get
            ⟨rng.choice_idx % target.inventory.length,
             Nat.mod_lt _ (List.length_pos.mpr
               (by simpa [List.isEmpty_iff] using hInv))⟩
          let w := w.updAgent tid fun t =>
            { t with inventory := t.inventory.erase stolen }
          let w := w.updAgent aid fun a =>
            { a with inventory := a.inventory ++ [stolen] }
          let w := w.updAgent tid fun t =>
            updRel t aid fun rel =>
              { score := max 0 (rel.score - 30), context := "thief" }
          let w :=
            if rng.u2 < 3 / 10 then
              let w := w.updAgent aid fun a => addMemory a "stole item, was seen"
              w.updAgent tid fun t => addMemory t "saw my item stolen"
            else
              w.updAgent aid fun a => addMemory a "stole item unseen"
          (logEvent w "theft", .res true "theft attempt done")
        else
          let w := w.updAgent aid fun a => addMemory a "failed to steal"
          let w := w.updAgent tid fun t => addMemory t "caught attempted theft"
          let w := w.updAgent tid fun t =>
            updRel t aid fun rel => { rel with score := max 0 (rel.score - 40) }
          (logEvent w "theft failed", .res true "theft attempt done")

/-- `models/actions.py:722` `FormAllianceAction.execute`. -/
def executeFormAlliance (w : World) (aid : String) (p : ActParams) :
    World × Outcome :=
  withAgent w aid fun agent =>
    match lookupTarget w p.target_id with
    | none => (w, .res false "alliance partner required")
    | some (tid, target) =>
      if target.role ≠ .prisoner then
        (w, .res false "can only ally with prisoners")
      else if manhattan agent.position target.position > 2 then
        (w, .res false "target too far")
      else
        let w := w.updAgent aid fun a =>
          { a with action_points := a.action_points - 2 }
        let w := w.updAgent tid fun t =>
          updRel t aid fun rel =>
            { score := min 100 (rel.score + 30),
              context := s!"{p.alliance_name} member" }
        let w := w.updAgent aid fun a =>
          updRel a tid fun rel =>
            { score := min 100 (rel.score + 30),
              context := s!"{p.alliance_name} member" }
        let w := w.updAgent aid fun a => addMemory a "formed alliance"
        let w := w.updAgent tid fun t => addMemory t "formed alliance"
        (logEvent w "alliance", .res true "alliance formed")

/-- `models/actions.py:788,799`: the crafting materials. -/
def craftMaterials : List ItemType :=
  [.spoon, .bedsheet, .soap]

/-- `models/actions.py:793` `CraftWeaponAction.execute`.  Success when
`(traits.logic + traits.resilience) * 0.6 + random.random() * 0.4 > 0.6`. -/
def executeCraftWeapon (rng : Rng) (w : World) (aid : String) :
    World × Outcome :=
  withAgent w aid fun agent =>
    let available := agent.inventory.filter
      (fun it => craftMaterials.contains it.item_type)
    match available with
    | [] => (w, .res false "no crafting materials")
    | material :: _ =>
      let w := w.updAgent aid fun a =>
        { a with action_points := a.action_points - 3 }
      let w := w.updAgent aid fun a =>
        { a with inventory :=
            a.inventory.eraseP (fun it => it == material) }
      let successRate : ℚ :=
        ((agent.traits.logic + agent.traits.resilience : Int) : ℚ) * (3 / 5)
          + rng.u1 * (2 / 5)
      if successRate > 3 / 5 then
        let shiv : Item :=
          { item_id := s!"shiv_{aid}_{w.hour}", name := "makeshift shiv",
            description := "crude prison weapon", item_type := .shiv }
        let w := w.updAgent aid fun a =>
          addMemory { a with inventory := a.inventory ++ [shiv] } "crafted a shiv"
        (logEvent w "crafts", .res true "craft attempt done")
      else
        let w := w.updAgent aid fun a => addMemory a "crafting failed"
        (logEvent w "craft failed", .res true "craft attempt done")

/-- `models/actions.py:862` `SpreadRumorAction.execute`.  The rumor reaches
every other prisoner within Manhattan distance 5; a rumor mentioning the
guards costs 5 sanity, one mentioning escape restores 5. -/
def executeSpreadRumor (w : World) (aid : String) (p : ActParams) :
    World × Outcome :=
  withAgent w aid fun agent =>
    let w := w.updAgent aid fun a =>
      { a with action_points := a.action_points - 1 }
    let w := w.mapAgents fun oid ag =>
      if ag.role = .prisoner && oid ≠ aid
          && manhattan agent.position ag.position ≤ 5 then
        let ag := addMemory ag s!"heard rumor: {p.rumor_text}"
        if strContains p.rumor_text "狱警" then
          { ag with sanity := max 0 (ag.sanity - 5) }
        else if strContains p.rumor_text "逃跑" then
          { ag with sanity := min 100 (ag.sanity + 5) }
        else ag
      else ag
    let w := w.updAgent aid fun a =>
      addMemory a s!"spread rumor: {p.rumor_text}"
    (logEvent w "spreads rumor", .res true "rumor spread")

/-- `models/actions.py:1044` `DigTunnelAction.execute`: after deducting the
3 action points (line 1048), line 1051 reads
`agent.personality_traits.logic`, but the `Agent` model has no
`personality_traits` field (it is named `traits`), so Python raises
`AttributeError` there and the rest of the body never runs. -/
def executeDigTunnel (w : World) (aid : String) : World × Outcome :=
  withAgent w aid fun _ =>
    let w := w.updAgent aid fun a =>
      { a with action_points := a.action_points - 3 }
    (w, .exn "AttributeError: Agent object has no attribute personality_traits")

/-- `can_execute` of every registered action class.  The base class
(`models/actions.py:25`) requires the agent to exist and
`action_points >= ap_cost`; the role-gated subclasses add a role check, and
the two crafting-style actions additionally require materials/tools.  No
`can_execute` reads the keyword arguments. -/
def canExecute (k : ActionKind) (w : World) (aid : String) : Bool :=
  match w.getAgent aid with
  | none => false
  | some a =>
    match k with
    | .doNothing | .move | .useItem | .giveItem | .speak | .attack =>
      decide (apCost k ≤ a.action_points)
    | .announceRule | .patrolInspect | .enforcePunishment | .assignTask
    | .emergencyAssembly =>
      decide (a.role = .guard) && decide (apCost k ≤ a.action_points)
    | .stealItem | .formAlliance | .spreadRumor =>
      decide (a.role = .prisoner) && decide (apCost k ≤ a.action_points)
    | .craftWeapon =>
      decide (a.role = .prisoner) && decide (apCost k ≤ a.action_points)
        && a.inventory.any (fun it => craftMaterials.contains it.item_type)
    | .digTunnel =>
      decide (a.role = .prisoner) && decide (apCost k ≤ a.action_points)
        && a.inventory.any
             (fun it => it.item_type == ItemType.spoon
                     || it.item_type == ItemType.toolbox)

/-- `ACTION_REGISTRY` dispatch: run the `execute` of the registered class for
an action kind. -/
def executeAction (r : GameRules) (rng : Rng) (k : ActionKind) (w : World)
    (aid : String) (p : ActParams) : World × Outcome :=
  match k with
  | .doNothing => executeDoNothing w aid
  | .move => executeMove w aid p
  | .speak => executeSpeak w aid p
  | .attack => executeAttack r rng w aid p
  | .useItem => executeUseItem w aid p
  | .giveItem => executeGiveItem w aid p
  | .announceRule => executeAnnounceRule w aid p
  | .patrolInspect => executePatrolInspect w aid p
  | .enforcePunishment => executeEnforcePunishment w aid p
  | .assignTask => executeAssignTask w aid p
  | .emergencyAssembly => executeEmergencyAssembly w aid p
  | .stealItem => executeStealItem rng w aid p
  | .formAlliance => executeFormAlliance w aid p
  | .craftWeapon => executeCraftWeapon rng w aid
  | .spreadRumor => executeSpreadRumor w aid p
  | .digTunnel => executeDigTunnel w aid

/-- `core/engine.py:180-186`: the engine invokes `execute` only after
`can_execute` passes; otherwise it logs a validation failure and never calls
`execute`, leaving the world state untouched (`none`). -/
def engineGuardedExecute (r : GameRules) (rng : Rng) (k : ActionKind)
    (w : World) (aid : String) (p : ActParams) : Option (World × Outcome) :=
  if canExecute k w aid then some (executeAction r rng k w aid p) else none

/-! ## The bounded-vitals invariant (spec §3, §8) -/

/-- A vital or relationship score lies in `[0, 100]`. -/
def vitalOK (x : Int) : Prop :=
  0 ≤ x ∧ x ≤ 100

instance (x : Int) : Decidable (vitalOK x) := by
  unfold vitalOK; infer_instance

/-- The five vitals and all relationship scores of one agent are in
`[0, 100]`. -/
def validAgent (a : Agent) : Prop :=
  vitalOK a.hp ∧ vitalOK a.sanity ∧ vitalOK a.hunger ∧ vitalOK a.thirst ∧
    vitalOK a.strength ∧ ∀ pr ∈ a.relationships, vitalOK pr.2.score

instance (a : Agent) : Decidable (validAgent a) := by
  unfold validAgent; infer_instance

/-- Every agent of the world satisfies `validAgent`. -/
def validWorld (w : World) : Prop :=
  ∀ pr ∈ w.agents, validAgent pr.2

instance (w : World) : Decidable (validWorld w) := by
  unfold validWorld; infer_instance

theorem vitalOK_sub {x k : Int} (h : vitalOK x) (hk : 0 ≤ k) :
    vitalOK (max 0 (x - k)) := by
  unfold vitalOK at *; omega

theorem vitalOK_add {x k : Int} (h : vitalOK x) (hk : 0 ≤ k) :
    vitalOK (min 100 (x + k)) := by
  unfold vitalOK at *; omega


theorem validWorld_logEvent {w : World} {s : String} (h : validWorld w) :
    validWorld (logEvent w s) := by
  intro pr hpr
  exact h pr hpr

theorem validWorld_updAgent {w : World} {aid : String} {f : Agent → Agent}
    (hf : ∀ a, validAgent a → validAgent (f a)) (h : validWorld w) :
    validWorld (w.updAgent aid f) := by
  intro pr hpr
  rcases List.mem_map.mp hpr with ⟨q, hq, heq⟩
  by_cases hk : q.1 == aid
  · simp only [World.updAgent, hk, if_pos] at heq
    subst heq
    exact hf _ (h q hq)
  · simp only [World.updAgent, hk] at heq
    simp at hk
    simp [hk] at heq
    subst heq
    exact h q hq

theorem validWorld_mapAgents {w : World} {f : String → Agent → Agent}
    (hf : ∀ i a, validAgent a → validAgent (f i a)) (h : validWorld w) :
    validWorld (w.mapAgents f) := by
  intro pr hpr
  rcases List.mem_map.mp hpr with ⟨q, hq, heq⟩
  subst heq
  exact hf _ _ (h q hq)

theorem validAgent_addMemory {a : Agent} {s : String} (h : validAgent a) :
    validAgent (addMemory a s) := by
  unfold validAgent addMemory at *
  simpa using h

theorem validAgent_updRel {a : Agent} {tid : String}
    {f : Relationship → Relationship}
    (hf : ∀ r, vitalOK r.score → vitalOK (f r).score) (h : validAgent a) :
    validAgent (updRel a tid f) := by
  obtain ⟨h1, h2, h3, h4, h5, h6⟩ := h
  refine ⟨h1, h2, h3, h4, h5, ?_⟩
  intro pr hpr
  rcases List.mem_map.mp hpr with ⟨q, hq, heq⟩
  by_cases hk : q.1 == tid
  · simp only [hk, if_pos] at heq
    subst heq
    exact hf _ (h6 q hq)
  · simp only [hk] at heq
    simp at hk
    simp [hk] at heq
    subst heq
    exact h6 q hq

/-! ### The Status Engine preserves the invariant -/

theorem validAgent_hourlyDecay {r : GameRules} {a : Agent}
    (h : validAgent a) : validAgent (hourlyDecay r a) := by
  obtain ⟨h1, h2, h3, h4, h5, h6⟩ := h
  exact ⟨h1, h2, vitalOK_add h3 (Int.ofNat_nonneg _),
    vitalOK_add h4 (Int.ofNat_nonneg _), h5, h6⟩

theorem hpPenaltyTimes120_nonneg (a : Agent) : 0 ≤ hpPenaltyTimes120 a := by
  unfold hpPenaltyTimes120
  have h1 : 0 ≤ (a.hunger - 80) ^ 2 := sq_nonneg _
  have h2 : 0 ≤ (a.thirst - 75) ^ 2 := sq_nonneg _
  split <;> split <;> omega

theorem validAgent_hourlyHpDamage {a : Agent} (h : validAgent a) :
    validAgent (hourlyHpDamage a) := by
  unfold hourlyHpDamage
  split
  · obtain ⟨h1, h2, h3, h4, h5, h6⟩ := h
    refine ⟨vitalOK_sub h1 ?_, h2, h3, h4, h5, h6⟩
    exact Int.fdiv_nonneg (hpPenaltyTimes120_nonneg a) (by norm_num)
  · exact h

theorem validAgent_hourlySanity {r : GameRules} {a : Agent}
    (h : validAgent a) : validAgent (hourlySanity r a) := by
  obtain ⟨h1, h2, h3, h4, h5, h6⟩ := h
  refine ⟨h1, vitalOK_sub h2 ?_, h3, h4, h5, h6⟩
  exact mul_nonneg (Int.ofNat_nonneg _) (Int.ofNat_nonneg _)

theorem validAgent_updateStatusTags {a : Agent} (h : validAgent a) :
    validAgent (updateStatusTags a) :=
  h

theorem validAgent_applyHourlyChanges {r : GameRules} {a : Agent}
    (h : validAgent a) : validAgent (applyHourlyChanges r a).1 := by
  unfold applyHourlyChanges
  have hstep : validAgent
      (updateStatusTags (hourlySanity r (hourlyHpDamage (hourlyDecay r a)))) :=
    validAgent_updateStatusTags
      (validAgent_hourlySanity (validAgent_hourlyHpDamage
        (validAgent_hourlyDecay h)))
  dsimp only
  split
  · exact hstep
  · exact hstep

theorem validWorld_advanceAgents {r : GameRules} :
    ∀ {l : List (String × Agent)}, (∀ pr ∈ l, validAgent pr.2) →
      ∀ pr ∈ (advanceAgents r l).1, validAgent pr.2 := by
  intro l
  induction l with
  | nil => intro _ pr hpr; simp [advanceAgents] at hpr
  | cons hd tl ih =>
    intro h pr hpr
    unfold advanceAgents at hpr
    dsimp only at hpr
    by_cases hc : (applyHourlyChanges r hd.2).2
    · simp only [hc, if_pos] at hpr
      rcases List.mem_cons.mp hpr with heq | hmem
      · subst heq
        exact validAgent_applyHourlyChanges (h hd (List.mem_cons_self _ _))
      · exact h _ (List.mem_cons_of_mem _ hmem)
    · simp only [hc] at hpr
      rcases List.mem_cons.mp hpr with heq | hmem
      · subst heq
        exact validAgent_applyHourlyChanges (h hd (List.mem_cons_self _ _))
      · exact ih (fun q hq => h q (List.mem_cons_of_mem _ hq)) _ hmem

/-- The Status Engine's advance keeps every vital and relationship score in
`[0, 100]`, whether or not the death-branch `NameError` aborts it. -/
theorem validWorld_advanceTime {r : GameRules} {w : World}
    (h : validWorld w) : validWorld (advanceTime r w).1 := by
  unfold advanceTime
  dsimp only
  split
  · exact fun pr hpr => validWorld_advanceAgents (fun q hq => h q hq) pr hpr
  · exact fun pr hpr => validWorld_advanceAgents (fun q hq => h q hq) pr hpr

/-! ### Every action's execute preserves the invariant -/

theorem validWorld_executeDoNothing {w : World} {aid : String}
    (h : validWorld w) : validWorld (executeDoNothing w aid).1 := by
  unfold executeDoNothing withAgent
  cases w.getAgent aid with
  | none => exact h
  | some a =>
    exact validWorld_logEvent (validWorld_updAgent (fun b hb => hb) h)

theorem validWorld_moveClampAndCommit {w : World} {aid : String} {ag : Agent}
    {tx ty tx0 ty0 : Int} (h : validWorld w) :
    validWorld (moveClampAndCommit w aid ag tx ty tx0 ty0).1 := by
  unfold moveClampAndCommit
  dsimp only
  split
  · exact h
  · exact validWorld_logEvent (validWorld_updAgent (fun b hb => hb) h)

theorem validWorld_executeMove {w : World} {aid : String} {p : ActParams}
    (h : validWorld w) : validWorld (executeMove w aid p).1 := by
  unfold executeMove withAgent
  cases w.getAgent aid with
  | none => exact h
  | some a =>
    cases p.x with
    | none => cases p.y <;> exact h
    | some tx0 =>
      cases p.y with
      | none => exact h
      | some ty0 =>
        dsimp only
        split
        · split
          · exact h
          · exact validWorld_moveClampAndCommit h
        · exact validWorld_moveClampAndCommit h

theorem validWorld_executeSpeak {w : World} {aid : String} {p : ActParams}
    (h : validWorld w) : validWorld (executeSpeak w aid p).1 := by
  unfold executeSpeak withAgent
  cases w.getAgent aid with
  | none => exact h
  | some a =>
    cases lookupTarget w p.target_id with
    | none => exact h
    | some pr =>
      dsimp only
      split
      · exact h
      · exact validWorld_logEvent (validWorld_updAgent (fun b hb => hb)
          (validWorld_updAgent (fun b hb => hb) h))

theorem validWorld_executeAttack {r : GameRules} {rng : Rng} {w : World}
    {aid : String} {p : ActParams} (h : validWorld w) :
    validWorld (executeAttack r rng w aid p).1 := by
  unfold executeAttack withAgent
  cases w.getAgent aid with
  | none => exact h
  | some a =>
    cases lookupTarget w p.target_id with
    | none => exact h
    | some pr =>
      dsimp only
      split
      · exact h
      · refine validWorld_logEvent ?_
        refine validWorld_updAgent (fun b hb => hb) ?_
        refine validWorld_updAgent (fun b hb => hb) ?_
        refine validWorld_updAgent (fun b hb =>
          validAgent_updRel (fun rel hr => vitalOK_sub hr (by norm_num)) hb) ?_
        refine validWorld_updAgent (fun b hb =>
          validAgent_updRel (fun rel hr => vitalOK_sub hr (by norm_num)) hb) ?_
        refine validWorld_updAgent (fun b hb => hb) ?_
        refine validWorld_updAgent (fun b hb => ?_) ?_
        · obtain ⟨h1, h2, h3, h4, h5, h6⟩ := hb
          exact ⟨vitalOK_sub h1 (Int.ofNat_nonneg _), h2, h3, h4, h5, h6⟩
        · refine validWorld_updAgent (fun b hb => ?_) h
          obtain ⟨h1, h2, h3, h4, h5, h6⟩ := hb
          refine ⟨vitalOK_sub h1 ?_, h2, h3, h4, h5, h6⟩
          have := le_max_left 1 (r.base_damage +
            truncMulInt (a.strength - pr.2.strength) r.strength_modifier
            + rng.attack_roll)
          unfold attackDamage
          omega

theorem validWorld_executeUseItem {w : World} {aid : String} {p : ActParams}
    (h : validWorld w) : validWorld (executeUseItem w aid p).1 := by
  unfold executeUseItem withAgent
  cases w.getAgent aid with
  | none => exact h
  | some a =>
    dsimp only
    cases a.inventory.find? (fun it => p.item_id == some it.item_id) with
    | none => exact h
    | some item =>
      dsimp only
      cases item.item_type
      case food =>
        refine validWorld_logEvent (validWorld_updAgent (fun b hb => ?_) h)
        obtain ⟨h1, h2, h3, h4, h5, h6⟩ := hb
        exact ⟨h1, h2, vitalOK_sub h3 (by norm_num), h4, h5, h6⟩
      case water =>
        refine validWorld_logEvent (validWorld_updAgent (fun b hb => ?_) h)
        obtain ⟨h1, h2, h3, h4, h5, h6⟩ := hb
        exact ⟨h1, h2, h3, vitalOK_sub h4 (by norm_num), h5, h6⟩
      case book =>
        refine validWorld_logEvent (validWorld_updAgent (fun b hb => ?_) h)
        obtain ⟨h1, h2, h3, h4, h5, h6⟩ := hb
        exact ⟨h1, vitalOK_add h2 (by norm_num), h3, h4, h5, h6⟩
      all_goals exact h

theorem validWorld_executeGiveItem {w : World} {aid : String} {p : ActParams}
    (h : validWorld w) : validWorld (executeGiveItem w aid p).1 := by
  unfold executeGiveItem withAgent
  cases w.getAgent aid with
  | none => exact h
  | some a =>
    cases lookupTarget w p.target_id with
    | none => exact h
    | some pr =>
      dsimp only
      split
      · exact h
      · cases a.inventory.find? (fun it => p.item_id == some it.item_id) with
        | none => exact h
        | some item =>
          refine validWorld_logEvent ?_
          refine validWorld_updAgent (fun b hb => hb) ?_
          refine validWorld_updAgent (fun b hb => hb) ?_
          refine validWorld_updAgent (fun b hb =>
            validAgent_updRel (fun rel hr => vitalOK_add hr (by norm_num)) hb) ?_
          refine validWorld_updAgent (fun b hb =>
            validAgent_updRel (fun rel hr => vitalOK_add hr (by norm_num)) hb) ?_
          refine validWorld_updAgent (fun b hb => hb) ?_
          refine validWorld_updAgent (fun b hb => hb) ?_
          exact validWorld_updAgent (fun b hb => hb) h

theorem validWorld_executeAnnounceRule {w : World} {aid : String}
    {p : ActParams} (h : validWorld w) :
    validWorld (executeAnnounceRule w aid p).1 := by
  unfold executeAnnounceRule withAgent
  cases w.getAgent aid with
  | none => exact h
  | some a =>
    dsimp only
    split
    · exact h
    · refine validWorld_logEvent ?_
      refine validWorld_updAgent (fun b hb => hb) ?_
      refine validWorld_mapAgents (fun i b hb => ?_) ?_
      · split
        · exact validAgent_addMemory (validAgent_updRel
            (fun rel hr => vitalOK_sub hr (by norm_num)) hb)
        · exact hb
      · exact validWorld_updAgent (fun b hb => hb) h

theorem validWorld_executePatrolInspect {w : World} {aid : String}
    {p : ActParams} (h : validWorld w) :
    validWorld (executePatrolInspect w aid p).1 := by
  unfold executePatrolInspect withAgent
  cases w.getAgent aid with
  | none => exact h
  | some a =>
    cases lookupTarget w p.target_id with
    | none => exact h
    | some pr =>
      dsimp only
      split
      · exact h
      · refine validWorld_logEvent ?_
        refine validWorld_updAgent (fun b hb => hb) ?_
        refine validWorld_updAgent (fun b hb => hb) ?_
        refine validWorld_updAgent (fun b hb =>
          validAgent_updRel (fun rel hr => vitalOK_sub hr (by norm_num)) hb) ?_
        refine validWorld_updAgent (fun b hb =>
          validAgent_updRel (fun rel hr => vitalOK_sub hr (by norm_num)) hb) ?_
        exact validWorld_updAgent (fun b hb => hb) h

theorem validWorld_executeEnforcePunishment {w : World} {aid : String}
    {p : ActParams} (h : validWorld w) :
    validWorld (executeEnforcePunishment w aid p).1 := by
  unfold executeEnforcePunishment withAgent
  cases w.getAgent aid with
  | none => exact h
  | some a =>
    cases lookupTarget w p.target_id with
    | none => exact h
    | some pr =>
      dsimp only
      split
      · exact h
      · split
        · exact h
        · refine validWorld_logEvent ?_
          refine validWorld_updAgent (fun b hb => hb) ?_
          refine validWorld_updAgent (fun b hb => hb) ?_
          refine validWorld_updAgent (fun b hb =>
            validAgent_updRel (fun rel hr => vitalOK_sub hr (by norm_num)) hb) ?_
          refine validWorld_updAgent (fun b hb =>
            validAgent_updRel (fun rel hr => vitalOK_sub hr (by norm_num)) hb) ?_
          refine validWorld_updAgent (fun b hb => ?_) ?_
          · split
            · obtain ⟨h1, h2, h3, h4, h5, h6⟩ := hb
              exact ⟨h1, vitalOK_sub h2 (by norm_num), h3, h4, h5, h6⟩
            · split
              · obtain ⟨h1, h2, h3, h4, h5, h6⟩ := hb
                exact ⟨h1, h2, h3, h4, vitalOK_sub h5 (by norm_num), h6⟩
              · split
                · exact hb
                · exact hb
          · exact validWorld_updAgent (fun b hb => hb) h

theorem validWorld_executeAssignTask {w : World} {aid : String}
    {p : ActParams} (h : validWorld w) :
    validWorld (executeAssignTask w aid p).1 := by
  unfold executeAssignTask withAgent
  cases w.getAgent aid with
  | none => exact h
  | some a =>
    cases lookupTarget w p.target_id with
    | none => exact h
    | some pr =>
      dsimp only
      split
      · exact h
      · refine validWorld_logEvent ?_
        refine validWorld_updAgent (fun b hb => hb) ?_
        refine validWorld_updAgent (fun b hb => hb) ?_
        refine validWorld_updAgent (fun b hb => ?_) ?_
        · obtain ⟨h1, h2, h3, h4, h5, h6⟩ := hb
          exact ⟨h1, vitalOK_sub h2 (by norm_num), h3, h4, h5, h6⟩
        · refine validWorld_updAgent (fun b hb =>
            validAgent_updRel (fun rel hr => vitalOK_add hr (by norm_num)) hb) ?_
          refine validWorld_updAgent (fun b hb =>
            validAgent_updRel (fun rel hr => vitalOK_sub hr (by norm_num)) hb) ?_
          exact validWorld_updAgent (fun b hb => hb) h

theorem validWorld_executeEmergencyAssembly {w : World} {aid : String}
    {p : ActParams} (h : validWorld w) :
    validWorld (executeEmergencyAssembly w aid p).1 := by
  unfold executeEmergencyAssembly withAgent
  cases w.getAgent aid with
  | none => exact h
  | some a =>
    refine validWorld_logEvent ?_
    refine validWorld_updAgent (fun b hb => hb) ?_
    refine validWorld_mapAgents (fun i b hb => ?_) ?_
    · split
      · refine validAgent_addMemory (validAgent_updRel
          (fun rel hr => vitalOK_sub hr (by norm_num)) ?_)
        obtain ⟨h1, h2, h3, h4, h5, h6⟩ := hb
        exact ⟨h1, vitalOK_sub h2 (by norm_num), h3, h4,
          vitalOK_sub h5 (by norm_num), h6⟩
      · exact hb
    · exact validWorld_updAgent (fun b hb => hb) h

theorem validWorld_executeStealItem {rng : Rng} {w : World} {aid : String}
    {p : ActParams} (h : validWorld w) :
    validWorld (executeStealItem rng w aid p).1 := by
  unfold executeStealItem withAgent
  cases w.getAgent aid with
  | none => exact h
  | some a =>
    cases lookupTarget w p.target_id with
    | none => exact h
    | some pr =>
      dsimp only
      split
      · exact h
      · split
        · exact h
        · split
          · refine validWorld_logEvent ?_
            refine ?_
            split
            · refine validWorld_updAgent (fun b hb => validAgent_addMemory hb) ?_
              refine validWorld_updAgent (fun b hb => validAgent_addMemory hb) ?_
              refine validWorld_updAgent (fun b hb =>
                validAgent_updRel (fun rel hr => vitalOK_sub hr (by norm_num)) hb) ?_
              refine validWorld_updAgent (fun b hb => hb) ?_
              refine validWorld_updAgent (fun b hb => hb) ?_
              exact validWorld_updAgent (fun b hb => hb) h
            · refine validWorld_updAgent (fun b hb => validAgent_addMemory hb) ?_
              refine validWorld_updAgent (fun b hb =>
                validAgent_updRel (fun rel hr => vitalOK_sub hr (by norm_num)) hb) ?_
              refine validWorld_updAgent (fun b hb => hb) ?_
              refine validWorld_updAgent (fun b hb => hb) ?_
              exact validWorld_updAgent (fun b hb => hb) h
          · refine validWorld_logEvent ?_
            refine validWorld_updAgent (fun b hb =>
              validAgent_updRel (fun rel hr => vitalOK_sub hr (by norm_num)) hb) ?_
            refine validWorld_updAgent (fun b hb => validAgent_addMemory hb) ?_
            refine validWorld_updAgent (fun b hb => validAgent_addMemory hb) ?_
            exact validWorld_updAgent (fun b hb => hb) h

theorem validWorld_executeFormAlliance {w : World} {aid : String}
    {p : ActParams} (h : validWorld w) :
    validWorld (executeFormAlliance w aid p).1 := by
  unfold executeFormAlliance withAgent
  cases w.getAgent aid with
  | none => exact h
  | some a =>
    cases lookupTarget w p.target_id with
    | none => exact h
    | some pr =>
      dsimp only
      split
      · exact h
      · split
        · exact h
        · refine validWorld_logEvent ?_
          refine validWorld_updAgent (fun b hb => hb) ?_
          refine validWorld_updAgent (fun b hb => hb) ?_
          refine validWorld_updAgent (fun b hb =>
            validAgent_updRel (fun rel hr => vitalOK_add hr (by norm_num)) hb) ?_
          refine validWorld_updAgent (fun b hb =>
            validAgent_updRel (fun rel hr => vitalOK_add hr (by norm_num)) hb) ?_
          exact validWorld_updAgent (fun b hb => hb) h

theorem validWorld_executeCraftWeapon {rng : Rng} {w : World} {aid : String}
    (h : validWorld w) : validWorld (executeCraftWeapon rng w aid).1 := by
  unfold executeCraftWeapon withAgent
  cases w.getAgent aid with
  | none => exact h
  | some a =>
    dsimp only
    cases a.inventory.filter (fun it => craftMaterials.contains it.item_type) with
    | nil => exact h
    | cons material rest =>
      dsimp only
      split
      · refine validWorld_logEvent ?_
        refine validWorld_updAgent (fun b hb => validAgent_addMemory hb) ?_
        refine validWorld_updAgent (fun b hb => hb) ?_
        exact validWorld_updAgent (fun b hb => hb) h
      · refine validWorld_logEvent ?_
        refine validWorld_updAgent (fun b hb => validAgent_addMemory hb) ?_
        refine validWorld_updAgent (fun b hb => hb) ?_
        exact validWorld_updAgent (fun b hb => hb) h

theorem validWorld_executeSpreadRumor {w : World} {aid : String}
    {p : ActParams} (h : validWorld w) :
    validWorld (executeSpreadRumor w aid p).1 := by
  unfold executeSpreadRumor withAgent
  cases w.getAgent aid with
  | none => exact h
  | some a =>
    refine validWorld_logEvent ?_
    refine validWorld_updAgent (fun b hb => hb) ?_
    refine validWorld_mapAgents (fun i b hb => ?_) ?_
    · split
      · split
        · obtain ⟨h1, h2, h3, h4, h5, h6⟩ := validAgent_addMemory hb
          exact ⟨h1, vitalOK_sub h2 (by norm_num), h3, h4, h5, h6⟩
        · split
          · obtain ⟨h1, h2, h3, h4, h5, h6⟩ := validAgent_addMemory hb
            exact ⟨h1, vitalOK_add h2 (by norm_num), h3, h4, h5, h6⟩
          · exact validAgent_addMemory hb
      · exact hb
    · exact validWorld_updAgent (fun b hb => hb) h

theorem validWorld_executeDigTunnel {w : World} {aid : String}
    (h : validWorld w) : validWorld (executeDigTunnel w aid).1 := by
  unfold executeDigTunnel withAgent
  cases w.getAgent aid with
  | none => exact h
  | some a =>
    exact validWorld_updAgent (fun b hb => hb) h

/-- Dispatch form: every registered action's `execute` preserves the
bounded-vitals invariant, whatever its outcome. -/
theorem validWorld_executeAction {r : GameRules} {rng : Rng}
    {k : ActionKind} {w : World} {aid : String} {p : ActParams}
    (h : validWorld w) : validWorld (executeAction r rng k w aid p).1 := by
  cases k
  case doNothing => exact validWorld_executeDoNothing h
  case move => exact validWorld_executeMove h
  case speak => exact validWorld_executeSpeak h
  case attack => exact validWorld_executeAttack h
  case useItem => exact validWorld_executeUseItem h
  case giveItem => exact validWorld_executeGiveItem h
  case announceRule => exact validWorld_executeAnnounceRule h
  case patrolInspect => exact validWorld_executePatrolInspect h
  case enforcePunishment => exact validWorld_executeEnforcePunishment h
  case assignTask => exact validWorld_executeAssignTask h
  case emergencyAssembly => exact validWorld_executeEmergencyAssembly h
  case stealItem => exact validWorld_executeStealItem h
  case formAlliance => exact validWorld_executeFormAlliance h
  case craftWeapon => exact validWorld_executeCraftWeapon h
  case spreadRumor => exact validWorld_executeSpreadRumor h
  case digTunnel => exact validWorld_executeDigTunnel h

/-! ## Lookup / update interaction lemmas -/

theorem find?_key_map_upd {α : Type} (l : List (String × α)) (k b : String)
    (f : α → α) :
    (l.map (fun p => if p.1 == k then (p.1, f p.2) else p)).find?
        (fun p => p.1 == b) =
      if b = k then
        (l.find? (fun p => p.1 == b)).map (fun p => (p.1, f p.2))
      else l.find? (fun p => p.1 == b) := by
  rw [List.find?_map]
  have hcomp : ((fun p : String × α => p.1 == b) ∘
      (fun p => if p.1 == k then (p.1, f p.2) else p)) =
      (fun p : String × α => p.1 == b) := by
    funext p
    by_cases h : p.1 = k <;> simp [h]
  rw [hcomp]
  cases hf : l.find? (fun p => p.1 == b) with
  | none => split <;> rfl
  | some q =>
    have hq := List.find?_some hf
    have hqb : q.1 = b := by simpa using hq
    by_cases hbk : b = k
    · subst hbk
      simp [hqb]
    · have hqk : (q.1 == k) = false := by simp [hqb, hbk]
      simp [hbk, hqk]
      exact fun hk => absurd (hqb.symm.trans hk) hbk

theorem getAgent_updAgent (w : World) (aid b : String) (f : Agent → Agent) :
    (w.updAgent aid f).getAgent b =
      if b = aid then (w.getAgent b).map f else w.getAgent b := by
  unfold World.getAgent World.updAgent
  dsimp only
  rw [find?_key_map_upd]
  split
  · cases w.agents.find? (fun p => p.1 == b) <;> rfl
  · rfl

theorem getAgent_logEvent (w : World) (s : String) (b : String) :
    (logEvent w s).getAgent b = w.getAgent b :=
  rfl

/-- The directed relationship entry `a.relationships[b].score`, when
present. -/
def relScoreOf (a : Agent) (b : String) : Option Int :=
  (a.relationships.find? (fun pr => pr.1 == b)).map (fun pr => pr.2.score)

/-- The directed relationship score `x → y` in a world. -/
def relScore (w : World) (x y : String) : Option Int :=
  (w.getAgent x).bind (fun a => relScoreOf a y)

theorem relScoreOf_updRel (a : Agent) (tid b : String)
    (f : Relationship → Relationship) :
    relScoreOf (updRel a tid f) b =
      if b = tid then
        (a.relationships.find? (fun pr => pr.1 == b)).map
          (fun pr => (f pr.2).score)
      else relScoreOf a b := by
  unfold relScoreOf updRel
  dsimp only
  rw [find?_key_map_upd]
  split
  · cases a.relationships.find? (fun pr => pr.1 == b) <;> rfl
  · rfl

theorem relScoreOf_addMemory (a : Agent) (s : String) (b : String) :
    relScoreOf (addMemory a s) b = relScoreOf a b :=
  rfl

theorem lookupTarget_some {w : World} {tidOpt : Option String}
    {tid : String} {t : Agent}
    (h : lookupTarget w tidOpt = some (tid, t)) :
    tidOpt = some tid ∧ w.getAgent tid = some t := by
  unfold lookupTarget at h
  cases tidOpt with
  | none => exact absurd h (by simp)
  | some s =>
    by_cases hs : s = ""
    · simp [hs] at h
    · simp only [hs, if_neg, ite_false] at h
      cases hA : w.getAgent s with
      | none => rw [hA] at h; exact absurd h (by simp)
      | some a =>
        rw [hA] at h
        simp at h
        obtain ⟨h1, h2⟩ := h
        subst h1
        exact ⟨rfl, by rw [hA, h2]⟩

/-! ## Concrete worlds used to instantiate the theorems -/

/-- A neutral trait block (all traits mid-range). -/
def baseTraits : AgentTraits :=
  ⟨50, 50, 50, 50, 50⟩

/-- A healthy agent template. -/
def mkAgent (i : String) (role : Role) (pos : Int × Int) (ap : Int) : Agent :=
  { agent_id := i, name := i, role := role, traits := baseTraits,
    hp := 100, sanity := 100, hunger := 0, thirst := 0, strength := 50,
    action_points := ap, position := pos, inventory := [], status_tags := [],
    relationships := [], memory := [] }

/-- A parameter block with nothing supplied (every `kwargs.get` default). -/
def noParams : ActParams :=
  { x := none, y := none, target_id := none, item_id := none, message := "",
    reason := "No reason given", rule_text := "default rule",
    punishment_type := "isolation", alliance_name := "alliance",
    rumor_text := "change is coming", task_text := "clean", location := "corner" }

/-- Concrete configuration values in the shape of `configs/game_rules.json`. -/
def sampleRules : GameRules :=
  { hunger_increase_per_hour := 10, thirst_increase_per_hour := 15,
    sanity_penalty_per_bad_tag := 5, base_damage := 10,
    strength_modifier := mkRat 1 2, random_damage_lo := 1,
    random_damage_hi := 3, recoil_damage := 2 }

/-- Fixed random draws. -/
def sampleRng : Rng :=
  ⟨2, mkRat 1 2, mkRat 1 2, 0⟩

/-- A guard at (1,1) holding a neutral view of the prisoner. -/
def guardAgent : Agent :=
  { mkAgent "guard_1" .guard (1, 1) 3 with
      relationships := [("prisoner_1", ⟨50, "neutral"⟩)] }

/-- A prisoner at (2,1) holding a neutral view of the guard. -/
def prisonerAgent : Agent :=
  { mkAgent "prisoner_1" .prisoner (2, 1) 3 with
      relationships := [("guard_1", ⟨50, "neutral"⟩)] }

/-- A guard and a prisoner standing next to each other, mutual relationship
score 50. -/
def sampleWorld : World :=
  { session_id := "s1", day := 1, hour := 8, minute := 0,
    agents := [("guard_1", guardAgent), ("prisoner_1", prisonerAgent)],
    game_map := { width := 9, height := 16, items := [] },
    event_log := [] }

/-- Parameters aiming the guard at the prisoner. -/
def sampleParams : ActParams :=
  { noParams with target_id := some "prisoner_1", x := some 3, y := some 1 }

/-! ## C1 -/

/-- C1: for every world whose vitals and relationship scores lie in
`[0, 100]`, they still do after the Status Engine's advance (even when the
death-branch `NameError` aborts it midway) and after every registered
action's `execute`, whatever its parameters, random draws and outcome. -/
theorem vitals_and_relationships_bounded (r : GameRules) (rng : Rng)
    (w : World) (h : validWorld w) :
    validWorld (advanceTime r w).1 ∧
      ∀ (k : ActionKind) (aid : String) (p : ActParams),
        validWorld (executeAction r rng k w aid p).1 :=
  ⟨validWorld_advanceTime h, fun _ _ _ => validWorld_executeAction h⟩

theorem vitals_and_relationships_bounded_witness :
    validWorld sampleWorld ∧
      validWorld (advanceTime sampleRules sampleWorld).1 ∧
      validWorld (executeAction sampleRules sampleRng .attack sampleWorld
        "guard_1" sampleParams).1 :=
  ⟨by decide,
   (vitals_and_relationships_bounded sampleRules sampleRng sampleWorld
     (by decide)).1,
   (vitals_and_relationships_bounded sampleRules sampleRng sampleWorld
     (by decide)).2 .attack "guard_1" sampleParams⟩

/-! ## C2 -/

/-- A guard with zero action points. -/
def apZeroWorld : World :=
  { sampleWorld with agents :=
      [("guard_1", mkAgent "guard_1" .guard (1, 1) 0),
       ("prisoner_1", mkAgent "prisoner_1" .prisoner (2, 1) 0)] }

/-- C2 counterexample: calling an action's `execute` directly with
`action_points < cost` does not fail and does mutate state —
`DoNothingAction.execute` never re-checks AP, returns a successful result and
drives the guard's action points to `-1`. -/
theorem execute_succeeds_despite_insufficient_ap :
    apCost .doNothing = 1 ∧
    (apZeroWorld.getAgent "guard_1").map Agent.action_points = some 0 ∧
    (executeAction sampleRules sampleRng .doNothing apZeroWorld "guard_1"
      noParams).2.isSuccess = true ∧
    ((executeAction sampleRules sampleRng .doNothing apZeroWorld "guard_1"
      noParams).1.getAgent "guard_1").map Agent.action_points = some (-1) := by
  decide

/-- C2 (amended): for every registered action kind, an agent with
`action_points < cost` fails the `can_execute` precondition, so the engine's
guarded dispatch (`can_execute` then `execute`, `core/engine.py:180`) never
invokes `execute` and leaves the world state untouched; the AP check lives
only in `can_execute`, not in `execute` itself. -/
theorem insufficient_ap_blocks_guarded_execution (r : GameRules) (rng : Rng)
    (k : ActionKind) (w : World) (aid : String) (p : ActParams) (a : Agent)
    (hA : w.getAgent aid = some a) (hlt : a.action_points < apCost k) :
    canExecute k w aid = false ∧
      engineGuardedExecute r rng k w aid p = none := by
  have hdec : decide (apCost k ≤ a.action_points) = false :=
    decide_eq_false (by omega)
  have hce : canExecute k w aid = false := by
    unfold canExecute
    rw [hA]
    cases k <;> simp_all
  exact ⟨hce, by unfold engineGuardedExecute; rw [hce]; rfl⟩

theorem insufficient_ap_blocks_guarded_execution_witness :
    (apZeroWorld.getAgent "guard_1" =
        some (mkAgent "guard_1" .guard (1, 1) 0)) ∧
      (mkAgent "guard_1" .guard (1, 1) 0).action_points < apCost .doNothing ∧
      canExecute .doNothing apZeroWorld "guard_1" = false ∧
      engineGuardedExecute sampleRules sampleRng .doNothing apZeroWorld
        "guard_1" noParams = none :=
  ⟨by decide, by decide,
   (insufficient_ap_blocks_guarded_execution sampleRules sampleRng .doNothing
     apZeroWorld "guard_1" noParams (mkAgent "guard_1" .guard (1, 1) 0)
     (by decide) (by decide)).1,
   (insufficient_ap_blocks_guarded_execution sampleRules sampleRng .doNothing
     apZeroWorld "guard_1" noParams (mkAgent "guard_1" .guard (1, 1) 0)
     (by decide) (by decide)).2⟩

/-! ## C3 -/

/-- A prisoner holding a digging tool, with full action points. -/
def digWorld : World :=
  { sampleWorld with agents :=
      [("prisoner_1",
        { mkAgent "prisoner_1" .prisoner (2, 1) 3 with
            inventory := [⟨"spoon_1", "spoon", "a metal spoon", .spoon⟩] })] }

/-- C3 (code-bug evidence): `DigTunnelAction.execute` passes `can_execute`,
deducts its 3 action points, and then raises `AttributeError` because it
reads `agent.personality_traits` while the `Agent` model names the field
`traits` — so the action aborts abnormally with a partial mutation (the AP
deduction) already applied, violating atomicity. -/
theorem digTunnel_mutates_then_raises :
    canExecute .digTunnel digWorld "prisoner_1" = true ∧
    (executeAction sampleRules sampleRng .digTunnel digWorld "prisoner_1"
        noParams).2 =
      .exn "AttributeError: Agent object has no attribute personality_traits" ∧
    (digWorld.getAgent "prisoner_1").map Agent.action_points = some 3 ∧
    ((executeAction sampleRules sampleRng .digTunnel digWorld "prisoner_1"
        noParams).1.getAgent "prisoner_1").map Agent.action_points = some 0 := by
  decide

/-! ## C4 -/

/-- A world containing one dead prisoner (hp 0). -/
def deadAgentWorld : World :=
  { sampleWorld with agents :=
      [("prisoner_1", { mkAgent "prisoner_1" .prisoner (2, 1) 3 with hp := 0 })] }

/-- C4 (code-bug evidence): with a dead agent (hp 0) in the world the Status
Engine's advance does NOT complete normally — after recomputing the tags
(which do contain "deceased") the death branch of `_update_status_tags`
evaluates the undefined name `world_state` and raises `NameError`, so no
death event is ever recorded; the scheduler's agent phase does skip the dead
agent. -/
theorem advance_raises_on_dead_agent :
    ((deadAgentWorld.getAgent "prisoner_1").map Agent.hp = some 0) ∧
    (advanceTime sampleRules deadAgentWorld).2 = true ∧
    (((advanceTime sampleRules deadAgentWorld).1.getAgent "prisoner_1").map
      (fun a => a.status_tags.contains "deceased") = some true) ∧
    ((deadAgentWorld.getAgent "prisoner_1").map schedulerSkips = some true) := by
  decide

/-! ## C10 -/

/-- C10: `AttackAction.execute` fails exactly when the target id is falsy or
names no agent (`lookupTarget` yields nothing) or the Manhattan distance to
the target exceeds 2; in particular it succeeds — applying damage, recoil
and relationship changes — even when the target is dead (hp 0) or is the
attacker itself, since neither aliveness nor distinctness is checked. -/
theorem attack_failure_characterization (r : GameRules) (rng : Rng)
    (w : World) (aid : String) (p : ActParams) (a : Agent)
    (hA : w.getAgent aid = some a) :
    ((executeAttack r rng w aid p).2.isSuccess = true ↔
      ∃ tid t, lookupTarget w p.target_id = some (tid, t) ∧
        manhattan a.position t.position ≤ 2) ∧
    (∀ tid t, lookupTarget w p.target_id = some (tid, t) →
      manhattan a.position t.position ≤ 2 → (t.hp = 0 ∨ tid = aid) →
      (executeAttack r rng w aid p).2.isSuccess = true) := by
  have main : (executeAttack r rng w aid p).2.isSuccess = true ↔
      ∃ tid t, lookupTarget w p.target_id = some (tid, t) ∧
        manhattan a.position t.position ≤ 2 := by
    unfold executeAttack withAgent
    rw [hA]
    cases hT : lookupTarget w p.target_id with
    | none =>
      simp [Outcome.isSuccess]
    | some pr =>
      obtain ⟨tid, t⟩ := pr
      dsimp only
      split
      · rename_i hgt
        simp only [Outcome.isSuccess]
        constructor
        · intro hfalse
          exact absurd hfalse (by simp)
        · rintro ⟨tid2, t2, heq, hle⟩
          have hpair : tid = tid2 ∧ t = t2 := by
            have h' := heq
            simp at h'
            exact h'
          obtain ⟨hteq, haeq⟩ := hpair
          subst hteq
          subst haeq
          omega
      · simp only [Outcome.isSuccess]
        rename_i hle
        constructor
        · intro _
          exact ⟨tid, t, rfl, by omega⟩
        · intro _
          trivial
  exact ⟨main, fun tid t hT hle _ => main.mpr ⟨tid, t, hT, hle⟩⟩

theorem attack_failure_characterization_witness :
    (sampleWorld.getAgent "guard_1" = some guardAgent) ∧
    ((executeAttack sampleRules sampleRng sampleWorld "guard_1"
        sampleParams).2.isSuccess = true ↔
      ∃ tid t, lookupTarget sampleWorld sampleParams.target_id =
          some (tid, t) ∧
        manhattan guardAgent.position t.position ≤ 2) :=
  ⟨by decide,
   (attack_failure_characterization sampleRules sampleRng sampleWorld
     "guard_1" sampleParams guardAgent (by decide)).1⟩

/-! ## C6 -/

/-- Attacker and target adjacent, with both directed relationship scores
already at 0. -/
def zeroRelWorld : World :=
  { sampleWorld with agents :=
      [("guard_1",
        { mkAgent "guard_1" .guard (1, 1) 3 with
            relationships := [("prisoner_1", ⟨0, "hated"⟩)] }),
       ("prisoner_1",
        { mkAgent "prisoner_1" .prisoner (2, 1) 3 with
            relationships := [("guard_1", ⟨0, "hated"⟩)] })] }

/-- C6 counterexample: a successful attack between agents whose directed
relationship scores are both 0 — the `max(0, score - k)` updates change
neither score, so neither directed score decreases and the target's view
does not drop by a strictly larger amount. -/
theorem attack_at_zero_scores_decreases_neither :
    (executeAttack sampleRules sampleRng zeroRelWorld "guard_1"
      sampleParams).2.isSuccess = true ∧
    relScore zeroRelWorld "guard_1" "prisoner_1" = some 0 ∧
    relScore zeroRelWorld "prisoner_1" "guard_1" = some 0 ∧
    relScore (executeAttack sampleRules sampleRng zeroRelWorld "guard_1"
      sampleParams).1 "guard_1" "prisoner_1" = some 0 ∧
    relScore (executeAttack sampleRules sampleRng zeroRelWorld "guard_1"
      sampleParams).1 "prisoner_1" "guard_1" = some 0 := by
  decide

/-- C6 (amended): for every successful attack on a target distinct from the
attacker, the damage is at least 1; the target's health becomes exactly
`max(0, hp - damage)`; the attacker's health drops by the fixed recoil
penalty, clamped at 0; and, when the directed relationship entries exist,
the attacker→target score becomes exactly `max(0, s - 10)` and the
target→attacker score exactly `max(0, s - 25)` — so both scores strictly
decrease, the target's by a strictly larger amount, whenever both prior
scores are at least 25; at lower scores the clamp at 0 can shrink or erase
either decrease. -/
theorem attack_success_effects (r : GameRules) (rng : Rng) (w : World)
    (aid : String) (p : ActParams) (a t : Agent) (tid : String)
    (s1 s2 : Int)
    (hA : w.getAgent aid = some a)
    (hT : lookupTarget w p.target_id = some (tid, t))
    (hdist : manhattan a.position t.position ≤ 2)
    (hne : tid ≠ aid)
    (h1 : relScore w aid tid = some s1)
    (h2 : relScore w tid aid = some s2) :
    (executeAttack r rng w aid p).2 = .res true "Attack executed" ∧
    1 ≤ attackDamage r rng a t ∧
    ((executeAttack r rng w aid p).1.getAgent tid).map Agent.hp =
      some (max 0 (t.hp - attackDamage r rng a t)) ∧
    ((executeAttack r rng w aid p).1.getAgent aid).map Agent.hp =
      some (max 0 (a.hp - (r.recoil_damage : Int))) ∧
    relScore (executeAttack r rng w aid p).1 aid tid =
      some (max 0 (s1 - 10)) ∧
    relScore (executeAttack r rng w aid p).1 tid aid =
      some (max 0 (s2 - 25)) ∧
    (25 ≤ s1 → 25 ≤ s2 →
      max 0 (s1 - 10) < s1 ∧ max 0 (s2 - 25) < s2 ∧
        s1 - max 0 (s1 - 10) < s2 - max 0 (s2 - 25)) := by
  have hne2 : aid ≠ tid := fun h => hne h.symm
  have hTA : w.getAgent tid = some t := (lookupTarget_some hT).2
  obtain ⟨pr1, hpr1, hs1⟩ :
      ∃ pr, a.relationships.find? (fun pr => pr.1 == tid) = some pr ∧
        pr.2.score = s1 := by
    unfold relScore relScoreOf at h1
    rw [hA] at h1
    simp only [Option.some_bind] at h1
    cases hf : a.relationships.find? (fun pr => pr.1 == tid) with
    | none => rw [hf] at h1; simp at h1
    | some pr =>
      rw [hf] at h1
      simp at h1
      exact ⟨pr, rfl, h1⟩
  obtain ⟨pr2, hpr2, hs2⟩ :
      ∃ pr, t.relationships.find? (fun pr => pr.1 == aid) = some pr ∧
        pr.2.score = s2 := by
    unfold relScore relScoreOf at h2
    rw [hTA] at h2
    simp only [Option.some_bind] at h2
    cases hf : t.relationships.find? (fun pr => pr.1 == aid) with
    | none => rw [hf] at h2; simp at h2
    | some pr =>
      rw [hf] at h2
      simp at h2
      exact ⟨pr, rfl, h2⟩
  unfold executeAttack withAgent
  rw [hA, hT]
  dsimp only
  rw [if_neg (by omega : ¬ manhattan a.position t.position > 2)]
  dsimp only
  refine ⟨rfl, le_max_left _ _, ?_, ?_, ?_, ?_, by intro hs1b hs2b; omega⟩
  · simp only [getAgent_logEvent, getAgent_updAgent, hne, hne2, if_true,
      if_false, ite_true, ite_false, if_pos rfl]
    rw [hTA]
    simp [addMemory, updRel]
  · simp only [getAgent_logEvent, getAgent_updAgent, hne, hne2, if_true,
      if_false, ite_true, ite_false, if_pos rfl]
    rw [hA]
    simp [addMemory, updRel]
  · simp [relScore, getAgent_logEvent, getAgent_updAgent, hne, hne2, hA,
      relScoreOf_addMemory, relScoreOf_updRel, hpr1, hs1]
  · simp [relScore, getAgent_logEvent, getAgent_updAgent, hne, hne2, hTA,
      relScoreOf_addMemory, relScoreOf_updRel, hpr2, hs2]

theorem attack_success_effects_witness :
    (sampleWorld.getAgent "guard_1" = some guardAgent) ∧
    (lookupTarget sampleWorld sampleParams.target_id =
      some ("prisoner_1", prisonerAgent)) ∧
    manhattan guardAgent.position prisonerAgent.position ≤ 2 ∧
    relScore (executeAttack sampleRules sampleRng sampleWorld "guard_1"
      sampleParams).1 "guard_1" "prisoner_1" = some (max 0 (50 - 10)) ∧
    relScore (executeAttack sampleRules sampleRng sampleWorld "guard_1"
      sampleParams).1 "prisoner_1" "guard_1" = some (max 0 (50 - 25)) :=
  ⟨by decide, by decide, by decide,
   (attack_success_effects sampleRules sampleRng sampleWorld "guard_1"
     sampleParams guardAgent prisonerAgent "prisoner_1" 50 50 (by decide)
     (by decide) (by decide) (by decide) (by decide)
     (by decide)).2.2.2.2.1,
   (attack_success_effects sampleRules sampleRng sampleWorld "guard_1"
     sampleParams guardAgent prisonerAgent "prisoner_1" 50 50 (by decide)
     (by decide) (by decide) (by decide) (by decide)
     (by decide)).2.2.2.2.2.1⟩

/-! ## C5 -/

theorem nat_div_add_div_le (a b c : Nat) (hc : 0 < c) :
    a / c + b / c ≤ (a + b) / c := by
  rw [Nat.le_div_iff_mul_le hc]
  have h1 : a / c * c ≤ a := Nat.div_mul_le_self a c
  have h2 : b / c * c ≤ b := Nat.div_mul_le_self b c
  calc (a / c + b / c) * c = a / c * c + b / c * c := by ring
    _ ≤ a + b := Nat.add_le_add h1 h2

/-- The proportional redirection of `MoveAction.execute` keeps the total
offset within the 8-step budget. -/
theorem scaled_budget (dx dy : Int) (hgt : 8 < |dx| + |dy|) :
    |(8 * dx).tdiv (|dx| + |dy|)| + |(8 * dy).tdiv (|dx| + |dy|)| ≤ 8 := by
  have hd0 : (0:Int) ≤ |dx| + |dy| := by positivity
  have hnat : (|dx| + |dy|).natAbs = dx.natAbs + dy.natAbs := by
    rw [Int.natAbs_add_of_nonneg (abs_nonneg dx) (abs_nonneg dy),
      Int.natAbs_abs, Int.natAbs_abs]
  have hpos : 0 < dx.natAbs + dy.natAbs := by
    have : (8:Int) < |dx| + |dy| := hgt
    omega
  have hx : ((8 * dx).tdiv (|dx| + |dy|)).natAbs =
      8 * dx.natAbs / (dx.natAbs + dy.natAbs) := by
    rw [Int.natAbs_tdiv, Int.natAbs_mul, hnat]
    rfl
  have hy : ((8 * dy).tdiv (|dx| + |dy|)).natAbs =
      8 * dy.natAbs / (dx.natAbs + dy.natAbs) := by
    rw [Int.natAbs_tdiv, Int.natAbs_mul, hnat]
    rfl
  have hsum : 8 * dx.natAbs / (dx.natAbs + dy.natAbs) +
      8 * dy.natAbs / (dx.natAbs + dy.natAbs) ≤ 8 := by
    have h1 := nat_div_add_div_le (8 * dx.natAbs) (8 * dy.natAbs)
      (dx.natAbs + dy.natAbs) hpos
    have h2 : (8 * dx.natAbs + 8 * dy.natAbs) / (dx.natAbs + dy.natAbs) = 8 := by
      have : 8 * dx.natAbs + 8 * dy.natAbs = 8 * (dx.natAbs + dy.natAbs) := by
        ring
      rw [this, Nat.mul_div_cancel _ hpos]
    omega
  have e1 : |(8 * dx).tdiv (|dx| + |dy|)| =
      (((8 * dx).tdiv (|dx| + |dy|)).natAbs : Int) := Int.abs_eq_natAbs _
  have e2 : |(8 * dy).tdiv (|dx| + |dy|)| =
      (((8 * dy).tdiv (|dx| + |dy|)).natAbs : Int) := Int.abs_eq_natAbs _
  rw [e1, e2, hx, hy]
  exact_mod_cast hsum

/-- The final cell chosen by `MoveAction.execute` is inside the map bounds
and within 8 Manhattan steps of the start, whenever the start is in bounds
and the requested (possibly already redirected) target is within budget. -/
theorem moveFinalTarget_spec (width height cx cy tx ty : Int)
    (hax : 0 ≤ cx ∧ cx ≤ width - 1) (hay : 0 ≤ cy ∧ cy ≤ height - 1)
    (hd : |tx - cx| + |ty - cy| ≤ 8) :
    (0 ≤ (moveFinalTarget width height cx cy tx ty).1 ∧
      (moveFinalTarget width height cx cy tx ty).1 ≤ width - 1) ∧
    (0 ≤ (moveFinalTarget width height cx cy tx ty).2 ∧
      (moveFinalTarget width height cx cy tx ty).2 ≤ height - 1) ∧
    |(moveFinalTarget width height cx cy tx ty).1 - cx| +
      |(moveFinalTarget width height cx cy tx ty).2 - cy| ≤ 8 := by
  unfold moveFinalTarget
  dsimp only
  simp only [abs_eq_max_neg] at hd ⊢
  repeat' split
  all_goals dsimp only
  all_goals exact ⟨⟨by omega, by omega⟩, ⟨by omega, by omega⟩, by omega⟩

/-- The commit stage of `MoveAction.execute`: on success the actor sits on
the chosen final cell, which is inside the bounds, within the 8-step budget,
and not occupied by any other agent. -/
theorem moveClampAndCommit_success (w : World) (aid : String) (a : Agent)
    (tx ty tx0 ty0 : Int)
    (hA : w.getAgent aid = some a)
    (hkeys : ∀ pr ∈ w.agents, pr.2.agent_id = pr.1)
    (hax : 0 ≤ a.position.1 ∧ a.position.1 ≤ w.game_map.width - 1)
    (hay : 0 ≤ a.position.2 ∧ a.position.2 ≤ w.game_map.height - 1)
    (hd : |tx - a.position.1| + |ty - a.position.2| ≤ 8)
    (hsucc : (moveClampAndCommit w aid a tx ty tx0 ty0).2.isSuccess = true) :
    ∃ fpos : Int × Int,
      ((moveClampAndCommit w aid a tx ty tx0 ty0).1.getAgent aid).map
        Agent.position = some fpos ∧
      (0 ≤ fpos.1 ∧ fpos.1 ≤ w.game_map.width - 1) ∧
      (0 ≤ fpos.2 ∧ fpos.2 ≤ w.game_map.height - 1) ∧
      manhattan a.position fpos ≤ 8 ∧
      ∀ pr ∈ (moveClampAndCommit w aid a tx ty tx0 ty0).1.agents,
        pr.1 ≠ aid → pr.2.position ≠ fpos := by
  have hspec := moveFinalTarget_spec w.game_map.width w.game_map.height
    a.position.1 a.position.2 tx ty hax hay hd
  unfold moveClampAndCommit at hsucc ⊢
  dsimp only at hsucc ⊢
  split at hsucc
  · exact absurd hsucc (by simp [Outcome.isSuccess])
  · rename_i hocc
    rw [if_neg hocc]
    have hany : (w.agents.any fun p =>
        decide (p.2.agent_id ≠ aid) && p.2.position ==
          moveFinalTarget w.game_map.width w.game_map.height a.position.1
            a.position.2 tx ty) = false := by
      revert hocc
      cases w.agents.any fun p =>
        decide (p.2.agent_id ≠ aid) && p.2.position ==
          moveFinalTarget w.game_map.width w.game_map.height a.position.1
            a.position.2 tx ty
      · intro _; rfl
      · intro hocc; exact absurd rfl hocc
    refine ⟨moveFinalTarget w.game_map.width w.game_map.height a.position.1
      a.position.2 tx ty, ?_, hspec.1, hspec.2.1, ?_, ?_⟩
    · rw [getAgent_logEvent, getAgent_updAgent, if_pos rfl, hA]
      simp [addMemory]
    · have h8 := hspec.2.2
      unfold manhattan
      calc |a.position.1 - (moveFinalTarget w.game_map.width w.game_map.height
              a.position.1 a.position.2 tx ty).1| +
            |a.position.2 - (moveFinalTarget w.game_map.width w.game_map.height
              a.position.1 a.position.2 tx ty).2|
          = |(moveFinalTarget w.game_map.width w.game_map.height a.position.1
              a.position.2 tx ty).1 - a.position.1| +
            |(moveFinalTarget w.game_map.width w.game_map.height a.position.1
              a.position.2 tx ty).2 - a.position.2| := by
            rw [abs_sub_comm, abs_sub_comm a.position.2]
        _ ≤ 8 := h8
    · intro pr hpr hprne
      have hpr2 : pr ∈ (w.updAgent aid fun b =>
          addMemory { b with
            position := moveFinalTarget w.game_map.width w.game_map.height
              a.position.1 a.position.2 tx ty,
            action_points := b.action_points - 1 }
            (if ((moveFinalTarget w.game_map.width w.game_map.height
                a.position.1 a.position.2 tx ty).1 ≠ tx0 ||
                 (moveFinalTarget w.game_map.width w.game_map.height
                a.position.1 a.position.2 tx ty).2 ≠ ty0 : Bool)
             then "Attempted move adjusted to nearest reachable position"
             else "Moved to position")).agents := hpr
      rcases List.mem_map.mp hpr2 with ⟨q, hq, heq⟩
      have hkey : pr.1 = q.1 := by
        by_cases hk : q.1 == aid <;> simp [World.updAgent, hk] at heq <;>
          rw [← heq]
      have hqne : (q.1 == aid) = false := by
        simp only [← hkey]
        simpa using hprne
      have hpq : pr = q := by
        simp only [World.updAgent, hqne] at heq
        simp at heq
        exact heq.symm
      subst hpq
      have hid : pr.2.agent_id = pr.1 := hkeys pr hq
      have hone := (List.any_eq_false.mp hany) pr hq
      simp only [Bool.and_eq_true, decide_eq_true_eq, not_and] at hone
      have hidne : pr.2.agent_id ≠ aid := by
        rw [hid]
        simpa using hqne
      have htwo := hone hidne
      simpa using htwo

/-- C5: a successful Move leaves the agent on a cell that is inside the map
bounds, distinct from every other agent's position, and within the 8-step
Manhattan budget of the start, with the adjustments applied in the source's
order — redirect along the requested bearing to the budget, clamp to bounds
(re-redirecting and re-clamping if clamping pushed the cell out of budget),
and only then validate occupancy — provided the agent starts inside the
bounds and the agent map keys its entries by their own id. -/
theorem move_success_postconditions (w : World) (aid : String) (p : ActParams)
    (a : Agent)
    (hA : w.getAgent aid = some a)
    (hkeys : ∀ pr ∈ w.agents, pr.2.agent_id = pr.1)
    (hax : 0 ≤ a.position.1 ∧ a.position.1 ≤ w.game_map.width - 1)
    (hay : 0 ≤ a.position.2 ∧ a.position.2 ≤ w.game_map.height - 1)
    (hsucc : (executeMove w aid p).2.isSuccess = true) :
    ∃ fpos : Int × Int,
      ((executeMove w aid p).1.getAgent aid).map Agent.position = some fpos ∧
      (0 ≤ fpos.1 ∧ fpos.1 ≤ w.game_map.width - 1) ∧
      (0 ≤ fpos.2 ∧ fpos.2 ≤ w.game_map.height - 1) ∧
      manhattan a.position fpos ≤ 8 ∧
      ∀ pr ∈ (executeMove w aid p).1.agents, pr.1 ≠ aid →
        pr.2.position ≠ fpos := by
  unfold executeMove withAgent at hsucc ⊢
  rw [hA] at hsucc ⊢
  revert hsucc
  cases hpx : p.x with
  | none =>
    intro hsucc
    cases hpy : p.y with
    | none => rw [hpy] at hsucc; simp [Outcome.isSuccess] at hsucc
    | some ty0 => rw [hpy] at hsucc; simp [Outcome.isSuccess] at hsucc
  | some tx0 =>
    cases hpy : p.y with
    | none =>
      intro hsucc
      simp [Outcome.isSuccess] at hsucc
    | some ty0 =>
      intro hsucc
      dsimp only at hsucc ⊢
      by_cases hgt : |tx0 - a.position.1| + |ty0 - a.position.2| > 8
      · rw [if_pos hgt] at hsucc ⊢
        by_cases hzero : tx0 - a.position.1 = 0 ∧ ty0 - a.position.2 = 0
        · rw [if_pos hzero] at hsucc
          exact absurd hsucc (by simp [Outcome.isSuccess])
        · rw [if_neg hzero] at hsucc ⊢
          by_cases hadj :
              |(8 * (tx0 - a.position.1)).tdiv
                  (|tx0 - a.position.1| + |ty0 - a.position.2|)| +
                |(8 * (ty0 - a.position.2)).tdiv
                  (|tx0 - a.position.1| + |ty0 - a.position.2|)| > 8
          · rw [if_pos hadj] at hsucc ⊢
            by_cases hxy : |tx0 - a.position.1| ≥ |ty0 - a.position.2|
            · rw [if_pos hxy] at hsucc ⊢
              refine moveClampAndCommit_success w aid a _ _ tx0 ty0 hA hkeys
                hax hay ?_ hsucc
              simp only [abs_eq_max_neg]
              repeat' split
              all_goals omega
            · rw [if_neg hxy] at hsucc ⊢
              refine moveClampAndCommit_success w aid a _ _ tx0 ty0 hA hkeys
                hax hay ?_ hsucc
              simp only [abs_eq_max_neg]
              repeat' split
              all_goals omega
          · rw [if_neg hadj] at hsucc ⊢
            refine moveClampAndCommit_success w aid a _ _ tx0 ty0 hA hkeys
              hax hay ?_ hsucc
            have hb := scaled_budget (tx0 - a.position.1) (ty0 - a.position.2)
              hgt
            have h1 : a.position.1 +
                (8 * (tx0 - a.position.1)).tdiv
                  (|tx0 - a.position.1| + |ty0 - a.position.2|) -
                a.position.1 =
                (8 * (tx0 - a.position.1)).tdiv
                  (|tx0 - a.position.1| + |ty0 - a.position.2|) := by ring
            have h2 : a.position.2 +
                (8 * (ty0 - a.position.2)).tdiv
                  (|tx0 - a.position.1| + |ty0 - a.position.2|) -
                a.position.2 =
                (8 * (ty0 - a.position.2)).tdiv
                  (|tx0 - a.position.1| + |ty0 - a.position.2|) := by ring
            rw [h1, h2]
            exact hb
      · rw [if_neg hgt] at hsucc ⊢
        exact moveClampAndCommit_success w aid a tx0 ty0 tx0 ty0 hA hkeys
          hax hay (le_of_not_lt hgt) hsucc

theorem move_success_postconditions_witness :
    (sampleWorld.getAgent "guard_1" = some guardAgent) ∧
    (∀ pr ∈ sampleWorld.agents, pr.2.agent_id = pr.1) ∧
    (0 ≤ guardAgent.position.1 ∧
      guardAgent.position.1 ≤ sampleWorld.game_map.width - 1) ∧
    (0 ≤ guardAgent.position.2 ∧
      guardAgent.position.2 ≤ sampleWorld.game_map.height - 1) ∧
    ((executeMove sampleWorld "guard_1" sampleParams).2.isSuccess = true) ∧
    ∃ fpos : Int × Int,
      ((executeMove sampleWorld "guard_1" sampleParams).1.getAgent
        "guard_1").map Agent.position = some fpos ∧
      (0 ≤ fpos.1 ∧ fpos.1 ≤ sampleWorld.game_map.width - 1) ∧
      (0 ≤ fpos.2 ∧ fpos.2 ≤ sampleWorld.game_map.height - 1) ∧
      manhattan guardAgent.position fpos ≤ 8 ∧
      ∀ pr ∈ (executeMove sampleWorld "guard_1" sampleParams).1.agents,
        pr.1 ≠ "guard_1" → pr.2.position ≠ fpos :=
  ⟨by decide, by decide, by decide, by decide, by decide,
   move_success_postconditions sampleWorld "guard_1" sampleParams guardAgent
     (by decide) (by decide) (by decide) (by decide) (by decide)⟩

/-! ## C8 -/

/-- `core/rule_engine.py:86`: the trigger hours of
`GuardFoodDistributionRule`. -/
def guardFoodTriggerHours : List Int :=
  [8, 12, 16, 20]

/-- `core/rule_engine.py:94-95`: `check_trigger` of
`GuardFoodDistributionRule` — `hour ∈ trigger_hours and minute == 0`. -/
def guardFoodCheckTrigger (w : World) : Bool :=
  guardFoodTriggerHours.contains w.hour && (w.minute == 0)

/-- The world after `n` ticks of the Status Engine (`advance_time` is called
once per tick and increments the hour before the per-agent loop, so the
clock advances even when the loop aborts). -/
def tickWorld (r : GameRules) (w : World) : Nat → World
  | 0 => w
  | n + 1 => (advanceTime r (tickWorld r w n)).1

theorem advanceTime_clock (r : GameRules) (w : World) :
    ((advanceTime r w).1.day = (if w.hour + 1 ≥ 24 then w.day + 1 else w.day))
      ∧ ((advanceTime r w).1.hour =
          (if w.hour + 1 ≥ 24 then 0 else w.hour + 1))
      ∧ ((advanceTime r w).1.minute = w.minute) := by
  unfold advanceTime
  dsimp only
  split <;> simp_all

theorem tickWorld_clock (r : GameRules) (w : World)
    (h : 0 ≤ w.hour ∧ w.hour < 24) : ∀ n : Nat,
    0 ≤ (tickWorld r w n).hour ∧ (tickWorld r w n).hour < 24 ∧
    24 * (tickWorld r w n).day + (tickWorld r w n).hour =
      24 * w.day + w.hour + n := by
  intro n
  induction n with
  | zero => exact ⟨h.1, h.2, by simp [tickWorld]⟩
  | succ n ih =>
    obtain ⟨ih1, ih2, ih3⟩ := ih
    have hc := advanceTime_clock r (tickWorld r w n)
    obtain ⟨hd, hh, _⟩ := hc
    unfold tickWorld
    rw [hd, hh]
    split <;> omega

/-- C8: along any run of ticks started at a valid clock (hour < 24), two
distinct ticks always carry distinct simulated (day, hour) stamps — so a
time-based rule evaluated once per tick fires at most once per simulated
hour — and the `GuardFoodDistributionRule` trigger ({8,12,16,20}, minute 0)
is never true at an hour outside its configured set. -/
theorem temporal_rule_fires_at_most_once_per_hour (r : GameRules) (w : World)
    (h : 0 ≤ w.hour ∧ w.hour < 24) :
    (∀ m n : Nat, m < n →
      ((tickWorld r w m).day, (tickWorld r w m).hour) ≠
        ((tickWorld r w n).day, (tickWorld r w n).hour)) ∧
    (∀ n : Nat, guardFoodCheckTrigger (tickWorld r w n) = true →
      (tickWorld r w n).hour ∈ guardFoodTriggerHours) := by
  constructor
  · intro m n hmn heq
    have hm := tickWorld_clock r w h m
    have hn := tickWorld_clock r w h n
    have h1 : (tickWorld r w m).day = (tickWorld r w n).day := by
      simpa using congrArg Prod.fst heq
    have h2 : (tickWorld r w m).hour = (tickWorld r w n).hour := by
      simpa using congrArg Prod.snd heq
    omega
  · intro n htr
    unfold guardFoodCheckTrigger at htr
    have hmem : guardFoodTriggerHours.contains (tickWorld r w n).hour = true :=
      (Bool.and_eq_true _ _ |>.mp htr).1
    simpa using hmem

/-! ## Goal/Priority System (`models/maslow_goals.py`) -/

/-- `models/maslow_goals.py:11` `NeedLevel`, in Python enumeration order. -/
inductive NeedLevel where
  | survival
  | safety
  | social
  | role
  | exploration
deriving DecidableEq, Repr

/-- `models/maslow_goals.py:19` `Goal`.  The `parameters` dict holds either
move coordinates or a speak target/message; scores are integer-valued. -/
structure Goal where
  goal_id : String
  name : String
  need_level : NeedLevel
  priority_score : Int
  action_type : String
  x : Option Int
  y : Option Int
  target_id : Option String
  message : String
  reasoning : String
deriving DecidableEq, Repr

/-- Python `max(l, key=key)` on a list: the first element attaining the
maximal key (`max` keeps the earliest of equal keys), `none` on `[]`. -/
def pyMaxBy (key : α → Int) : List α → Option α
  | [] => none
  | x :: xs =>
    match pyMaxBy key xs with
    | none => some x
    | some m => some (if key m > key x then m else x)

/-- Stable insertion used to model Python's stable `list.sort(key=...)`. -/
def insertSortedBy (le : α → α → Bool) (x : α) : List α → List α
  | [] => [x]
  | y :: ys => if le x y then x :: y :: ys else y :: insertSortedBy le x ys

/-- Python's stable sort: an element is placed before a later element
whenever `le` holds, and before every equal element that followed it. -/
def stableSortBy (le : α → α → Bool) (l : List α) : List α :=
  l.foldr (insertSortedBy le) []

/-- `models/maslow_goals.py:340` `_assess_nearby_threats` record. -/
structure ThreatInfo where
  tagent : Agent
  distance : Int
  threat_level : Int
  relationship_score : Int
deriving DecidableEq, Repr

/-- `models/maslow_goals.py:340` `_assess_nearby_threats`. -/
def assessNearbyThreats (a : Agent) (w : World) : List ThreatInfo :=
  w.agents.filterMap fun pr =>
    if pr.2.agent_id ≠ a.agent_id then
      match a.relationships.find? (fun r => r.1 == pr.2.agent_id) with
      | some rel =>
        if rel.2.score < 40 then
          some { tagent := pr.2,
                 distance := manhattan a.position pr.2.position,
                 threat_level := (40 - rel.2.score) *
                   (5 - min (manhattan a.position pr.2.position) 4),
                 relationship_score := rel.2.score }
        else none
      | none => none
    else none

/-- The `x,y` grid enumeration `for x in range(width): for y in range(height)`
used by the position searches. -/
def gridPositions (w : World) : List (Int × Int) :=
  (List.range w.game_map.width.toNat).flatMap fun x =>
    (List.range w.game_map.height.toNat).map fun y =>
      ((x : Int), (y : Int))

/-- `models/maslow_goals.py:312` `_is_position_safe`. -/
def isPositionSafe (a : Agent) (w : World) (pos : Int × Int) : Bool :=
  (w.agents.all fun pr =>
    !(pr.2.agent_id ≠ a.agent_id && pr.2.position == pos)) &&
  (w.agents.all fun pr =>
    !(pr.2.agent_id ≠ a.agent_id && manhattan pos pr.2.position ≤ 2 &&
      (match a.relationships.find? (fun r => r.1 == pr.2.agent_id) with
       | some rel => rel.2.score < 40
       | none => false)))

/-- `models/maslow_goals.py:295` `_find_safe_positions`: safe cells within
8 steps, stably sorted by distance ascending. -/
def findSafePositions (a : Agent) (w : World) : List (Int × Int) :=
  stableSortBy
    (fun p q => manhattan a.position p ≤ manhattan a.position q)
    ((gridPositions w).filter fun pos =>
      isPositionSafe a w pos && manhattan a.position pos ≤ 8)

/-- `models/maslow_goals.py:423` `_is_position_occupied`. -/
def isPositionOccupied (w : World) (pos : Int × Int) : Bool :=
  w.agents.any fun pr => pr.2.position == pos

/-- `models/maslow_goals.py:360` `_find_escape_positions`: in-range cells
away from the threat, stably sorted by distance from the threat
descending. -/
def findEscapePositions (a : Agent) (w : World) (threat : Agent) :
    List (Int × Int) :=
  stableSortBy
    (fun p q => manhattan threat.position q ≤ manhattan threat.position p)
    ((gridPositions w).filter fun pos =>
      manhattan a.position pos ≤ 8 && manhattan threat.position pos > 3 &&
        !isPositionOccupied w pos)

/-- `models/maslow_goals.py:332` `_find_nearest_resource`: the cafeteria cell
(4,8) for food and water, independent of the world state. -/
def findNearestResource (resource_type : String) : Option (Int × Int) :=
  if resource_type = "food" then some (4, 8)
  else if resource_type = "water" then some (4, 8)
  else none

/-- `models/maslow_goals.py:381` `_find_potential_allies`. -/
def findPotentialAllies (a : Agent) (w : World) : List Agent :=
  w.agents.filterMap fun pr =>
    if pr.2.agent_id ≠ a.agent_id && pr.2.role == a.role &&
        (match a.relationships.find? (fun r => r.1 == pr.2.agent_id) with
         | some rel => rel.2.score > 30
         | none => true) &&
        manhattan a.position pr.2.position ≤ 2 then
      some pr.2
    else none

/-- `models/maslow_goals.py:396` `_get_patrol_points`. -/
def patrolPoints : List (Int × Int) :=
  [(1, 1), (7, 1), (1, 14), (7, 14), (4, 8)]

/-- `models/maslow_goals.py:401` `_get_prisoner_safe_areas`. -/
def prisonerSafeAreas : List (Int × Int) :=
  [(2, 10), (6, 10), (4, 12)]

/-- `models/maslow_goals.py:411` exploration points. -/
def explorationPoints : List (Int × Int) :=
  [(0, 0), (8, 0), (0, 15), (8, 15), (4, 8)]

/-- `models/maslow_goals.py:405` `_find_unexplored_areas`. -/
def findUnexploredAreas (a : Agent) : List (Int × Int) :=
  explorationPoints.filter fun pt => manhattan a.position pt > 3

/-- A goal with only move coordinates as parameters. -/
def moveGoal (gid nm : String) (lvl : NeedLevel) (score : Int)
    (pos : Int × Int) (reason : String) : Goal :=
  { goal_id := gid, name := nm, need_level := lvl, priority_score := score,
    action_type := "move", x := some pos.1, y := some pos.2,
    target_id := none, message := "", reasoning := reason }

/-- `models/maslow_goals.py:60` `_generate_survival_goals`. -/
def generateSurvivalGoals (a : Agent) (w : World) : List Goal :=
  (if a.hp < 30 then
    match findSafePositions a w with
    | [] => []
    | pos :: _ =>
      [moveGoal "survival_flee" "flee" .survival (100 - a.hp) pos "flee danger"]
   else []) ++
  (if a.hunger > 85 then
    match findNearestResource "food" with
    | some loc =>
      [moveGoal "survival_hunger" "find food urgently" .survival
        (90 + (a.hunger - 85)) loc "starving"]
    | none => []
   else []) ++
  (if a.thirst > 80 then
    match findNearestResource "water" with
    | some loc =>
      [moveGoal "survival_thirst" "find water urgently" .survival
        (88 + (a.thirst - 80)) loc "dehydrated"]
    | none => []
   else [])

/-- `models/maslow_goals.py:112` `_generate_safety_goals`. -/
def generateSafetyGoals (a : Agent) (w : World) : List Goal :=
  (match pyMaxBy (fun t => t.threat_level) (assessNearbyThreats a w) with
   | none => []
   | some primary =>
     if primary.distance ≤ 2 then
       match findEscapePositions a w primary.tagent with
       | [] => []
       | pos :: _ =>
         [moveGoal "safety_escape" "escape threat" .safety
           (80 - primary.distance * 10) pos "threatened"]
     else []) ++
  (if a.hunger > 60 then
    match findNearestResource "food" with
    | some loc =>
      [moveGoal "safety_food" "find food" .safety (50 + a.hunger - 60) loc
        "hungry"]
    | none => []
   else []) ++
  (if a.thirst > 55 then
    match findNearestResource "water" with
    | some loc =>
      [moveGoal "safety_water" "find water" .safety (48 + a.thirst - 55) loc
        "thirsty"]
    | none => []
   else [])

/-- A speak goal. -/
def speakGoal (gid nm : String) (score : Int) (tid msg reason : String) :
    Goal :=
  { goal_id := gid, name := nm, need_level := .social,
    priority_score := score, action_type := "speak", x := none, y := none,
    target_id := some tid, message := msg, reasoning := reason }

/-- `models/maslow_goals.py:169` `_generate_social_goals`. -/
def generateSocialGoals (a : Agent) (w : World) : List Goal :=
  (if (a.relationships.filter fun r => r.2.score > 60).length = 0 then
    match findPotentialAllies a w with
    | [] => []
    | ally :: _ =>
      [speakGoal "social_alliance" "form alliance" 40 ally.agent_id
        "we should cooperate" "isolated"]
   else []) ++
  (a.relationships.flatMap fun r =>
    match w.getAgent r.1 with
    | some target =>
      if r.2.score > 60 && manhattan a.position target.position ≤ 2 then
        [speakGoal "social_maintain" "maintain relationship" 30 r.1
          "how are you" "keep allies close"]
      else []
    | none => [])

/-- `models/maslow_goals.py:211` `_generate_role_goals` (the world argument
is unused by the source method's logic). -/
def generateRoleGoals (a : Agent) (_w : World) : List Goal :=
  match a.role with
  | .guard =>
    match pyMaxBy (fun pt => manhattan a.position pt) patrolPoints with
    | some farthest =>
      [moveGoal "role_patrol" "patrol" .role 25 farthest "guard duty"]
    | none => []
  | .prisoner =>
    match prisonerSafeAreas with
    | area :: _ =>
      [moveGoal "role_adapt" "adapt" .role 20 area "learn the prison"]
    | [] => []

/-- `models/maslow_goals.py:254` `_generate_exploration_goals`. -/
def generateExplorationGoals (a : Agent) (w : World) : List Goal :=
  (if a.sanity < 60 then
    (w.game_map.items.filter fun pr =>
      pr.2.any fun it => it.item_type == ItemType.book).map fun pr =>
        moveGoal "exploration_mental" "mental health" .exploration 15 pr.1
          "need books"
   else []) ++
  (match findUnexploredAreas a with
   | area :: _ =>
     [moveGoal "exploration_discover" "explore" .exploration 10 area
       "curiosity"]
   | [] => [])

/-- `models/maslow_goals.py:430` `_create_default_goal`. -/
def createDefaultGoal : Goal :=
  { goal_id := "default_rest", name := "rest and observe",
    need_level := .exploration, priority_score := 1,
    action_type := "do_nothing", x := none, y := none, target_id := none,
    message := "", reasoning := "no urgent needs" }

/-- The candidates of all five tiers, concatenated in `NeedLevel`
enumeration order (`for need_level in NeedLevel`). -/
def allGoals (a : Agent) (w : World) : List Goal :=
  generateSurvivalGoals a w ++ generateSafetyGoals a w ++
    generateSocialGoals a w ++ generateRoleGoals a w ++
    generateExplorationGoals a w

/-- The descending-by-score comparison of
`all_goals.sort(key=lambda g: g.priority_score, reverse=True)`. -/
def goalGE (g1 g2 : Goal) : Bool :=
  g2.priority_score ≤ g1.priority_score

/-- `models/maslow_goals.py:43` `evaluate_and_select_goal`: generate all
tiers, return the default goal if nothing was generated, else stably sort by
descending score and take the first element. -/
def evaluateAndSelectGoal (a : Agent) (w : World) : Goal :=
  let gs := allGoals a w
  if gs.isEmpty then createDefaultGoal
  else ((stableSortBy goalGE gs).head?).getD createDefaultGoal

/-- The selection the spec describes: the first candidate, in generation
order, attaining the maximal score across all tiers. -/
def selectFirstMax : List Goal → Option Goal :=
  pyMaxBy (fun g => g.priority_score)

theorem pyMaxBy_eq_none {key : α → Int} {l : List α} :
    pyMaxBy key l = none ↔ l = [] := by
  cases l with
  | nil => simp [pyMaxBy]
  | cons x xs =>
    simp only [pyMaxBy]
    cases pyMaxBy key xs <;> simp

/-- `pyMaxBy` returns a member attaining the maximal key, and every element
generated before it has a strictly smaller key (Python's `max` keeps the
first of equal keys). -/
theorem pyMaxBy_spec (key : α → Int) :
    ∀ (l : List α) (m : α), pyMaxBy key l = some m →
      m ∈ l ∧ (∀ x ∈ l, key x ≤ key m) ∧
      ∃ l1 l2, l = l1 ++ m :: l2 ∧ ∀ x ∈ l1, key x < key m := by
  intro l
  induction l with
  | nil => intro m hm; simp [pyMaxBy] at hm
  | cons x xs ih =>
    intro m hm
    simp only [pyMaxBy] at hm
    cases hxs : pyMaxBy key xs with
    | none =>
      rw [hxs] at hm
      simp only [Option.some.injEq] at hm
      subst hm
      have hnil : xs = [] := pyMaxBy_eq_none.mp hxs
      subst hnil
      exact ⟨List.mem_singleton_self _, by simp, [], [], rfl, by simp⟩
    | some m0 =>
      rw [hxs] at hm
      simp only [Option.some.injEq] at hm
      obtain ⟨hmem0, hmax0, l1, l2, hsplit, hstrict⟩ := ih m0 hxs
      by_cases hgt : key m0 > key x
      · rw [if_pos hgt] at hm
        subst hm
        refine ⟨List.mem_cons_of_mem _ hmem0, ?_, x :: l1, l2, ?_, ?_⟩
        · intro z hz
          rcases List.mem_cons.mp hz with rfl | hz2
          · omega
          · exact hmax0 z hz2
        · simp [hsplit]
        · intro z hz
          rcases List.mem_cons.mp hz with rfl | hz2
          · omega
          · exact hstrict z hz2
      · rw [if_neg hgt] at hm
        subst hm
        refine ⟨List.mem_cons_self _ _, ?_, [], xs, rfl, by simp⟩
        intro z hz
        rcases List.mem_cons.mp hz with rfl | hz2
        · omega
        · have := hmax0 z hz2
          omega

theorem pyMaxBy_cons_of_lt {key : α → Int} {x : α} {xs : List α}
    (h : ∀ y ∈ xs, key y < key x) : pyMaxBy key (x :: xs) = some x := by
  simp only [pyMaxBy]
  cases hxs : pyMaxBy key xs with
  | none => rfl
  | some m =>
    have hmem := (pyMaxBy_spec key xs m hxs).1
    have hlt := h m hmem
    simp only []
    rw [if_neg (by omega)]

theorem head_insertSortedBy (le : α → α → Bool) (x : α) (l : List α) :
    (insertSortedBy le x l).head? =
      some (match l.head? with
            | none => x
            | some y => if le x y then x else y) := by
  cases l with
  | nil => rfl
  | cons y ys =>
    simp only [insertSortedBy]
    split <;> simp_all

/-- The head of Python's stable descending sort by key is exactly the first
element attaining the maximal key. -/
theorem head_stableSortBy_eq_pyMaxBy (key : α → Int) (l : List α) :
    (stableSortBy (fun p q => decide (key q ≤ key p)) l).head? =
      pyMaxBy key l := by
  induction l with
  | nil => rfl
  | cons x xs ih =>
    show (insertSortedBy _ x
      (stableSortBy (fun p q => decide (key q ≤ key p)) xs)).head? = _
    rw [head_insertSortedBy]
    simp only [pyMaxBy]
    rw [← ih]
    cases hh : (stableSortBy (fun p q => decide (key q ≤ key p)) xs).head? with
    | none => rfl
    | some y =>
      simp only [Option.some.injEq]
      by_cases hcmp : key y ≤ key x
      · rw [if_pos (by simpa using hcmp), if_neg (by omega)]
      · rw [if_neg (by simpa using hcmp), if_pos (by omega)]

/-- C7: goal selection returns the first generated candidate attaining the
maximal score across all five tiers (generation order = `NeedLevel`
enumeration order, then list order within a tier, since `allGoals`
concatenates the tiers in that order), and returns the default observe/rest
goal when no tier yields a candidate. -/
theorem goal_selection_cross_tier_max (a : Agent) (w : World) :
    (allGoals a w = [] → evaluateAndSelectGoal a w = createDefaultGoal) ∧
    ∀ g, selectFirstMax (allGoals a w) = some g →
      evaluateAndSelectGoal a w = g ∧ g ∈ allGoals a w ∧
      (∀ x ∈ allGoals a w, x.priority_score ≤ g.priority_score) ∧
      ∃ l1 l2, allGoals a w = l1 ++ g :: l2 ∧
        ∀ x ∈ l1, x.priority_score < g.priority_score := by
  constructor
  · intro h
    unfold evaluateAndSelectGoal
    simp [h]
  · intro g hg
    unfold selectFirstMax at hg
    obtain ⟨hmem, hmax, l1, l2, hsplit, hstrict⟩ :=
      pyMaxBy_spec (fun g => g.priority_score) (allGoals a w) g hg
    refine ⟨?_, hmem, hmax, l1, l2, hsplit, hstrict⟩
    unfold evaluateAndSelectGoal
    dsimp only
    have hne : (allGoals a w).isEmpty = false := by
      rw [hsplit]
      simp
    rw [hne]
    simp only [Bool.false_eq_true, if_false, ite_false]
    have hhead : (stableSortBy goalGE (allGoals a w)).head? = some g := by
      have hGE : goalGE = fun p q : Goal =>
          decide (q.priority_score ≤ p.priority_score) := rfl
      rw [hGE, head_stableSortBy_eq_pyMaxBy]
      exact hg
    rw [hhead]
    rfl

theorem manhattan_nonneg (p q : Int × Int) : 0 ≤ manhattan p q :=
  add_nonneg (abs_nonneg _) (abs_nonneg _)

theorem threats_distance_nonneg (a : Agent) (w : World) :
    ∀ t ∈ assessNearbyThreats a w, 0 ≤ t.distance := by
  intro t ht
  unfold assessNearbyThreats at ht
  rcases List.mem_filterMap.mp ht with ⟨pr, hpr, hsome⟩
  split at hsome
  · split at hsome
    · split at hsome
      · simp only [Option.some.injEq] at hsome
        rw [← hsome]
        exact manhattan_nonneg _ _
      · simp at hsome
    · simp at hsome
  · simp at hsome

theorem safety_goals_bound (a : Agent) (w : World) (hh : a.hunger = 95)
    (htt : a.thirst = 10) :
    ∀ g ∈ generateSafetyGoals a w, g.priority_score ≤ 85 := by
  intro g hg
  unfold generateSafetyGoals at hg
  rw [List.mem_append, List.mem_append] at hg
  rcases hg with (h1 | h2) | h3
  · revert h1
    cases hpm : pyMaxBy (fun t => t.threat_level) (assessNearbyThreats a w) with
    | none => intro h1; simp at h1
    | some primary =>
      intro h1
      dsimp only at h1
      have hdist : 0 ≤ primary.distance :=
        threats_distance_nonneg a w primary
          (pyMaxBy_spec _ _ _ hpm).1
      by_cases hdle : primary.distance ≤ 2
      · rw [if_pos hdle] at h1
        revert h1
        cases findEscapePositions a w primary.tagent with
        | nil => intro h1; simp at h1
        | cons pos rest =>
          intro h1
          rcases List.mem_singleton.mp h1 with rfl
          show 80 - primary.distance * 10 ≤ 85
          nlinarith
      · rw [if_neg hdle] at h1
        simp at h1
  · rw [if_pos (by omega)] at h2
    rw [show findNearestResource "food" = some (4, 8) from rfl] at h2
    rcases List.mem_singleton.mp h2 with rfl
    show 50 + a.hunger - 60 ≤ 85
    omega
  · rw [if_neg (by omega)] at h3
    simp at h3

theorem social_goals_bound (a : Agent) (w : World) :
    ∀ g ∈ generateSocialGoals a w, g.priority_score ≤ 40 := by
  intro g hg
  unfold generateSocialGoals at hg
  rcases List.mem_append.mp hg with h1 | h2
  · revert h1
    split
    · cases findPotentialAllies a w with
      | nil => intro h1; simp at h1
      | cons ally rest =>
        intro h1
        rcases List.mem_singleton.mp h1 with rfl
        norm_num [speakGoal]
    · intro h1; simp at h1
  · rcases List.mem_flatMap.mp h2 with ⟨r, hr, hmem⟩
    revert hmem
    cases w.getAgent r.1 with
    | none => intro hmem; simp at hmem
    | some target =>
      intro hmem
      dsimp only at hmem
      by_cases hc : (decide (r.2.score > 60) &&
          decide (manhattan a.position target.position ≤ 2)) = true
      · rw [if_pos hc] at hmem
        rcases List.mem_singleton.mp hmem with rfl
        norm_num [speakGoal]
      · rw [if_neg hc] at hmem
        simp at hmem

theorem role_goals_bound (a : Agent) (w : World) :
    ∀ g ∈ generateRoleGoals a w, g.priority_score ≤ 25 := by
  intro g hg
  unfold generateRoleGoals at hg
  revert hg
  cases a.role
  · cases hpm : pyMaxBy (fun pt => manhattan a.position pt) patrolPoints with
    | none => intro hg; simp at hg
    | some farthest =>
      intro hg
      rcases List.mem_singleton.mp hg with rfl
      norm_num [moveGoal]
  · intro hg
    rcases List.mem_singleton.mp hg with rfl
    norm_num [moveGoal]

theorem exploration_goals_bound (a : Agent) (w : World) :
    ∀ g ∈ generateExplorationGoals a w, g.priority_score ≤ 15 := by
  intro g hg
  unfold generateExplorationGoals at hg
  rcases List.mem_append.mp hg with h1 | h2
  · revert h1
    split
    · intro h1
      rcases List.mem_map.mp h1 with ⟨pr, hpr, rfl⟩
      norm_num [moveGoal]
    · intro h1; simp at h1
  · revert h2
    cases findUnexploredAreas a with
    | nil => intro h2; simp at h2
    | cons area rest =>
      intro h2
      rcases List.mem_singleton.mp h2 with rfl
      norm_num [moveGoal]

theorem survival_goals_at (a : Agent) (w : World) (hh : a.hunger = 95)
    (htt : a.thirst = 10) (hhp : a.hp = 100) :
    generateSurvivalGoals a w =
      [moveGoal "survival_hunger" "find food urgently" .survival 100 (4, 8)
        "starving"] := by
  unfold generateSurvivalGoals
  rw [hh, hhp, htt]
  rw [if_neg (by norm_num), if_pos (by norm_num), if_neg (by norm_num)]
  rw [show findNearestResource "food" = some (4, 8) from rfl]
  norm_num

/-- C9: for every world in which an agent has hunger 95, thirst 10, health
100 — the known food source being the cafeteria cell (4,8) that
`_find_nearest_resource` always reports, here 3 cells away — goal selection
returns the survival-tier `survival_hunger` goal: a Move towards (4,8) with
score 100 ≥ 90 (every other tier's candidate scores at most 85 in this
state). -/
theorem hungry_agent_selects_survival_move (a : Agent) (w : World)
    (hh : a.hunger = 95) (htt : a.thirst = 10) (hhp : a.hp = 100)
    (hfood : manhattan a.position (4, 8) = 3) :
    (evaluateAndSelectGoal a w).need_level = .survival ∧
    (evaluateAndSelectGoal a w).action_type = "move" ∧
    (evaluateAndSelectGoal a w).x = some 4 ∧
    (evaluateAndSelectGoal a w).y = some 8 ∧
    (evaluateAndSelectGoal a w).priority_score = 100 ∧
    90 ≤ (evaluateAndSelectGoal a w).priority_score := by
  have hsurv := survival_goals_at a w hh htt hhp
  have hall : allGoals a w =
      moveGoal "survival_hunger" "find food urgently" .survival 100 (4, 8)
        "starving" ::
      (generateSafetyGoals a w ++ generateSocialGoals a w ++
        generateRoleGoals a w ++ generateExplorationGoals a w) := by
    unfold allGoals
    rw [hsurv]
    simp [List.append_assoc]
  have hbound : ∀ y ∈ (generateSafetyGoals a w ++ generateSocialGoals a w ++
      generateRoleGoals a w ++ generateExplorationGoals a w),
      y.priority_score <
        (moveGoal "survival_hunger" "find food urgently" .survival 100 (4, 8)
          "starving").priority_score := by
    intro y hy
    show y.priority_score < 100
    rw [List.mem_append, List.mem_append, List.mem_append] at hy
    rcases hy with ((h1 | h2) | h3) | h4
    · have := safety_goals_bound a w hh htt y h1
      omega
    · have := social_goals_bound a w y h2
      omega
    · have := role_goals_bound a w y h3
      omega
    · have := exploration_goals_bound a w y h4
      omega
  have hsel : pyMaxBy (fun g => g.priority_score) (allGoals a w) =
      some (moveGoal "survival_hunger" "find food urgently" .survival 100
        (4, 8) "starving") := by
    rw [hall]
    exact pyMaxBy_cons_of_lt hbound
  have heval : evaluateAndSelectGoal a w =
      moveGoal "survival_hunger" "find food urgently" .survival 100 (4, 8)
        "starving" := by
    unfold evaluateAndSelectGoal
    dsimp only
    have hne : (allGoals a w).isEmpty = false := by
      rw [hall]
      rfl
    rw [hne]
    simp only [Bool.false_eq_true, if_false, ite_false]
    have hhead : (stableSortBy goalGE (allGoals a w)).head? =
        some (moveGoal "survival_hunger" "find food urgently" .survival 100
          (4, 8) "starving") := by
      have hGE : goalGE = fun p q : Goal =>
          decide (q.priority_score ≤ p.priority_score) := rfl
      rw [hGE, head_stableSortBy_eq_pyMaxBy]
      exact hsel
    rw [hhead]
    rfl
  rw [heval]
  exact ⟨rfl, rfl, rfl, rfl, rfl, by norm_num [moveGoal]⟩

/-- A starving prisoner 3 cells from the cafeteria. -/
def hungryAgent : Agent :=
  { mkAgent "prisoner_9" .prisoner (4, 5) 3 with hunger := 95, thirst := 10 }

/-- The world around the starving prisoner. -/
def hungryWorld : World :=
  { sampleWorld with agents := [("prisoner_9", hungryAgent)] }

theorem hungry_agent_selects_survival_move_witness :
    hungryAgent.hunger = 95 ∧ hungryAgent.thirst = 10 ∧
    hungryAgent.hp = 100 ∧ manhattan hungryAgent.position (4, 8) = 3 ∧
    (evaluateAndSelectGoal hungryAgent hungryWorld).need_level =
      .survival ∧
    (evaluateAndSelectGoal hungryAgent hungryWorld).action_type = "move" ∧
    (evaluateAndSelectGoal hungryAgent hungryWorld).x = some 4 ∧
    (evaluateAndSelectGoal hungryAgent hungryWorld).y = some 8 ∧
    (evaluateAndSelectGoal hungryAgent hungryWorld).priority_score = 100 ∧
    90 ≤ (evaluateAndSelectGoal hungryAgent hungryWorld).priority_score :=
  ⟨by decide, by decide, by decide, by decide,
   (hungry_agent_selects_survival_move hungryAgent hungryWorld (by decide)
     (by decide) (by decide) (by decide)).1,
   (hungry_agent_selects_survival_move hungryAgent hungryWorld (by decide)
     (by decide) (by decide) (by decide)).2.1,
   (hungry_agent_selects_survival_move hungryAgent hungryWorld (by decide)
     (by decide) (by decide) (by decide)).2.2.1,
   (hungry_agent_selects_survival_move hungryAgent hungryWorld (by decide)
     (by decide) (by decide) (by decide)).2.2.2.1,
   (hungry_agent_selects_survival_move hungryAgent hungryWorld (by decide)
     (by decide) (by decide) (by decide)).2.2.2.2.1,
   (hungry_agent_selects_survival_move hungryAgent hungryWorld (by decide)
     (by decide) (by decide) (by decide)).2.2.2.2.2⟩

theorem goal_selection_cross_tier_max_witness :
    (selectFirstMax (allGoals guardAgent sampleWorld) =
      some (moveGoal "role_patrol" "patrol" .role 25 (7, 14) "guard duty")) ∧
    evaluateAndSelectGoal guardAgent sampleWorld =
      moveGoal "role_patrol" "patrol" .role 25 (7, 14) "guard duty" :=
  ⟨by decide,
   ((goal_selection_cross_tier_max guardAgent sampleWorld).2
     (moveGoal "role_patrol" "patrol" .role 25 (7, 14) "guard duty")
     (by decide)).1⟩

theorem temporal_rule_fires_at_most_once_per_hour_witness :
    (0 ≤ sampleWorld.hour ∧ sampleWorld.hour < 24) ∧
    (∀ m n : Nat, m < n →
      ((tickWorld sampleRules sampleWorld m).day,
        (tickWorld sampleRules sampleWorld m).hour) ≠
        ((tickWorld sampleRules sampleWorld n).day,
          (tickWorld sampleRules sampleWorld n).hour)) :=
  ⟨by decide,
   (temporal_rule_fires_at_most_once_per_hour sampleRules sampleWorld
     (by decide)).1⟩
